import Mathlib

/-!
# Verification of `civitai_models_manager/modules/create.py`

A shallow embedding of the interactive image-creation CLI module.
Effectful Python code is modelled as functions from an explicit
environment (user answers and remote-service oracles) to a pair of
an event trace (console output, feedback messages, remote calls) and
an `Except`-result (normal return vs. a propagating Python exception).

External collaborators (`get_model_details`, `process_model_data`,
the `civitai` SDK client, `questionary` prompt answers) are fields of
the environment; everything else is translated line by line from
`src/civitai_models_manager/modules/create.py`.
-/

set_option linter.unusedVariables false

namespace CivitaiCreate

/-- A Python value as far as this module needs one: the metadata-lookup
helper is called both with string sources and integer ids (in either
order at the two call sites), so its arguments are tagged values. -/
inductive PyVal where
  | str (s : String)
  | int (n : Int)
deriving DecidableEq, Repr

/-- Python `str()` of a `PyVal`, as used in f-string interpolation. -/
def pyValStr : PyVal → String
  | .str s => s
  | .int n => toString n

/-- A propagating Python exception.  The payload is the text that
`str(e)` yields (modelled abstractly: only its flow matters here).
`remote` stands for any exception object raised by an external
collaborator (network client, metadata lookup). -/
inductive PyErr where
  | valueError (msg : String)
  | typeError (msg : String)
  | keyError (msg : String)
  | indexError (msg : String)
  | attrError (msg : String)
  | remote (msg : String)
deriving DecidableEq, Repr

/-- Python `str(e)` for an exception, used in f-string error messages. -/
def pyStr : PyErr → String
  | .valueError m => m
  | .typeError m => m
  | .keyError m => m
  | .indexError m => m
  | .attrError m => m
  | .remote m => m

/-! ## Python string-to-number parsing

`create.py` validates user input with `int(...)` and `float(...)` and
catches `ValueError`.  The functions below model CPython's accepted
literal language: surrounding whitespace, an optional sign, base-10
digits with single underscores strictly between digits, and for
`float` also an optional fraction, exponent, `inf`/`infinity`/`nan`. -/

/-- Whitespace characters stripped by Python numeric conversion. -/
def isPySpace (c : Char) : Bool :=
  c = ' ' || c = '\t' || c = '\n' || c = '\r'

/-- Strip leading and trailing whitespace. -/
def pyStrip (cs : List Char) : List Char :=
  ((cs.dropWhile isPySpace).reverse.dropWhile isPySpace).reverse

/-- Split a character list on a separator character; mirrors Python
`str.split(sep)` for a single-character separator (so the empty string
yields `[[]]`, and adjacent separators yield empty groups). -/
def groupsOn (sep : Char) : List Char → List (List Char)
  | [] => [[]]
  | c :: rest =>
    let gs := groupsOn sep rest
    if c = sep then [] :: gs
    else
      match gs with
      | g :: gt => (c :: g) :: gt
      | [] => [[c]]

/-- A digit run possibly containing underscores, valid per CPython:
nonempty, underscores only strictly between digits, never doubled. -/
def digitsUSOk (cs : List Char) : Bool :=
  (groupsOn '_' cs).all (fun g => !g.isEmpty && g.all Char.isDigit)

/-- Numeric value of a digit run, skipping underscores. -/
def digitsVal (cs : List Char) : Nat :=
  cs.foldl (fun a c => if c = '_' then a else 10 * a + (c.toNat - 48)) 0

/-- CPython `int(s)` on a character list: `some n` on success, `none`
where Python raises `ValueError`. -/
def pyParseIntL (cs : List Char) : Option Int :=
  match pyStrip cs with
  | '+' :: r => if digitsUSOk r then some (Int.ofNat (digitsVal r)) else none
  | '-' :: r => if digitsUSOk r then some (-(Int.ofNat (digitsVal r))) else none
  | r => if digitsUSOk r then some (Int.ofNat (digitsVal r)) else none

/-- CPython `int(s)` for a string. -/
def pyParseInt (s : String) : Option Int :=
  pyParseIntL s.toList

/-- A Python float, represented opaquely by the accepted literal: no
claim in this development depends on floating-point arithmetic, only
on whether `float(...)` accepts or rejects an input, and on the value
being carried into the request unchanged. -/
structure PyFloat where
  lit : String
deriving DecidableEq, Repr

/-- Exponent part of a float literal: optional sign, then digits. -/
def expOk (ex : List Char) : Bool :=
  match ex with
  | '+' :: r => digitsUSOk r
  | '-' :: r => digitsUSOk r
  | r => digitsUSOk r

/-- Mantissa of a float literal: digits, optionally with one point,
with at least one digit present overall. -/
def mantOk (m : List Char) : Bool :=
  match groupsOn '.' m with
  | [ip] => digitsUSOk ip
  | [ip, fp] =>
      (ip.isEmpty && digitsUSOk fp) || (fp.isEmpty && digitsUSOk ip) ||
      (digitsUSOk ip && digitsUSOk fp)
  | _ => false

/-- Body of a float literal after the sign: `inf`, `infinity`, `nan`
(case-insensitive) or mantissa with optional exponent. -/
def floatBodyOk (cs : List Char) : Bool :=
  let l := cs.map Char.toLower
  if l = "inf".toList || l = "infinity".toList || l = "nan".toList then true
  else
    match groupsOn 'e' l with
    | [m] => mantOk m
    | [m, ex] => mantOk m && expOk ex
    | _ => false

/-- CPython `float(s)`: `some` on success, `none` where Python raises
`ValueError`. -/
def pyParseFloat (s : String) : Option PyFloat :=
  let t := pyStrip s.toList
  let body := match t with
    | '+' :: r => r
    | '-' :: r => r
    | r => r
  if floatBodyOk body then some ⟨s⟩ else none

/-- The parse performed at create.py:225,
`width, height = map(int, width_height.split("x"))`:
`some (w, h)` when the split yields exactly two `int()`-parseable
parts; `none` wherever Python raises a `ValueError` (a part fails to
parse, or the unpacking receives fewer or more than two parts). -/
def widthHeightParse (s : String) : Option (Int × Int) :=
  match groupsOn 'x' s.toList with
  | [a, b] =>
    match pyParseIntL a, pyParseIntL b with
    | some w, some h => some (w, h)
    | _, _ => none
  | _ => none

/-- Written from the spec's words, not from the source: the input
matches the form `<int>x<int>` — two base-10 integer literals
(optional sign, then digits only) separated by the literal character
`x`.  Used to compare the spec's validation language against the
code's actual `int()`-based parse. -/
def specIntXInt (s : String) : Bool :=
  let intLit : List Char → Bool := fun cs =>
    match cs with
    | '+' :: r => !r.isEmpty && r.all Char.isDigit
    | '-' :: r => !r.isEmpty && r.all Char.isDigit
    | r => !r.isEmpty && r.all Char.isDigit
  match groupsOn 'x' s.toList with
  | [a, b] => intLit a && intLit b
  | _ => false

/-! ## Data model -/

/-- A model version record as consumed by this module: `id` and `name`
(used in the selection menu), and the `air` artifact reference, which
the code reads both with `["air"]` and with `.get("air")` (hence
`Option`). -/
structure ModelVersion where
  id : Int
  name : String
  air : Option String
deriving DecidableEq, Repr

/-- A raw or processed model record: the `type` tag read with
`.get("type")` (field named `typ`) and the `versions` list. -/
structure ModelRecord where
  typ : Option String
  versions : List ModelVersion
deriving DecidableEq, Repr

/-- One value of the `additionalNetworks` mapping:
`{"type": "Lora", "strength": 1.0}`. -/
structure NetEntry where
  type : String
  strength : PyFloat
deriving DecidableEq, Repr

/-- The `params` sub-dict of the generation request, fields in the
order they are written at create.py:96-106. -/
structure Params where
  prompt : String
  negativePrompt : Option String
  scheduler : Option String
  steps : Int
  cfgScale : PyFloat
  width : Int
  height : Int
  seed : Int
  clipSkip : Int
deriving DecidableEq, Repr

/-- The full `input_data` request dict.  `additionalNetworks = none`
models the key being absent; `some m` models the key present with
mapping `m` (an association list, insertion mirroring dict update). -/
structure InputData where
  model : String
  params : Params
  additionalNetworks : Option (List (String × NetEntry))
deriving DecidableEq, Repr

/-- An opaque remote response: a string-keyed dict. -/
abbrev Response := List (String × PyVal)

/-- Python dict key-membership test (`"jobId" in response`). -/
def dictHas (d : Response) (k : String) : Bool :=
  d.any (fun p => p.1 == k)

/-- Python dict assignment `d[k] = v`: overwrite an existing key in
place, otherwise append. -/
def dictInsert (d : List (String × NetEntry)) (k : String) (v : NetEntry) :
    List (String × NetEntry) :=
  if d.any (fun p => p.1 == k) then
    d.map (fun p => if p.1 == k then (k, v) else p)
  else d ++ [(k, v)]

/-- Python truthiness of an optional string (`None` and `""` are
falsy): returns the string when truthy. -/
def jtruthy : Option String → Option String
  | some s => if s = "" then none else some s
  | none => none

/-- Python truthiness of an optional dict (`None` and `{}` falsy). -/
def truthyD : Option Response → Bool
  | some r => !r.isEmpty
  | none => false

/-! ## Effects -/

/-- One observable step of the module: a `feedback_message` call, a
`console.print`, a `print_json` (payload elided), a `questionary`
prompt or select, or a call to an external collaborator.  The
`netModelLookup` argument triple records the three positional
arguments of `get_model_details` in call order. -/
inductive Event where
  | feedback (msg sev : String)
  | consolePrint (msg : String)
  | printJson
  | promptAsk (title : String)
  | selectAsk (title : String)
  | netModelLookup (args : PyVal × PyVal × PyVal)
  | netImageCreate (req : InputData)
  | netJobsGet (id : String)
  | netJobsQuery (detailed : Bool) (userId : String)
  | netJobsCancel (id : String)
deriving DecidableEq, Repr

/-- Result of running a piece of Python code: the events it performed,
and either its return value or the exception it is propagating. -/
abbrev PyM (α : Type) := List Event × Except PyErr α

/-- Normal completion. -/
def pret {α : Type} (a : α) : PyM α := ([], .ok a)

/-- A propagating `raise`. -/
def pthrow {α : Type} (e : PyErr) : PyM α := ([], .error e)

/-- Perform one event, then continue. -/
def pseq {α : Type} (ev : Event) (x : PyM α) : PyM α := (ev :: x.1, x.2)

/-- Emit one event and return `None`/`()`. -/
def pemit (ev : Event) : PyM Unit := ([ev], .ok ())

/-- Sequencing: run `x`; on normal completion feed its value to `f`,
on an exception propagate it (keeping the events already performed). -/
def pbind {α β : Type} (x : PyM α) (f : α → PyM β) : PyM β :=
  match x.2 with
  | .error e => (x.1, .error e)
  | .ok a => (x.1 ++ (f a).1, (f a).2)

/-- `try/except Exception`: run `x`; if it raises, run the handler. -/
def pytry {α : Type} (x : PyM α) (h : PyErr → PyM α) : PyM α :=
  match x.2 with
  | .error e => (x.1 ++ (h e).1, (h e).2)
  | .ok _ => x

/-! ## The environment: user answers and external collaborators -/

/-- Everything outside this module that a run consumes:
the metadata lookup and normalizer, each `questionary` answer
(`none` models a cancelled prompt returning Python `None`), and the
`civitai` SDK client endpoints (each may raise, modelled as
`Except.error`). -/
structure Env where
  getModelDetails : PyVal × PyVal × PyVal → Except PyErr (Option ModelRecord)
  processModelData : Option ModelRecord → Option ModelRecord
  selectVersionAnswer : Option ModelVersion
  posPromptAnswer : Option String
  negPromptAnswer : Option String
  widthHeightAnswer : Option String
  schedulerAnswer : Option String
  stepsAnswer : Option String
  cfgAnswer : Option String
  imageCreate : InputData → Except PyErr (Option Response)
  jobsGet : String → Except PyErr (Option Response)
  jobsQuery : Bool → String → Except PyErr (Option Response)
  jobsCancel : String → Except PyErr (Option Response)

/-- A call to `get_model_details(a, b, c)`: records the call with its
argument triple, result (or exception) supplied by the environment. -/
def pcallLookup (env : Env) (args : PyVal × PyVal × PyVal) :
    PyM (Option ModelRecord) :=
  ([.netModelLookup args], env.getModelDetails args)

/-- A call to `civitai.image.create(input_data)`. -/
def pcreate (env : Env) (d : InputData) : PyM (Option Response) :=
  ([.netImageCreate d], env.imageCreate d)

/-- A call to `civitai.jobs.get(id=job_id)`. -/
def pjobsGet (env : Env) (j : String) : PyM (Option Response) :=
  ([.netJobsGet j], env.jobsGet j)

/-- A call to `civitai.jobs.query(detailed=..., query_jobs_request=...)`
with query `{"properties": {"userId": user_id}}`. -/
def pjobsQuery (env : Env) (d : Bool) (u : String) : PyM (Option Response) :=
  ([.netJobsQuery d u], env.jobsQuery d u)

/-- A call to `civitai.jobs.cancel(job_id)`. -/
def pjobsCancel (env : Env) (j : String) : PyM (Option Response) :=
  ([.netJobsCancel j], env.jobsCancel j)

/-! ## `get_lora_details` (create.py:61-75)

```
def get_lora_details(CIVITAI_MODELS, CIVITAI_VERSIONS, lora_id: int):
    try:
        lora_data = get_model_details(CIVITAI_MODELS, CIVITAI_VERSIONS, lora_id)
        if lora_data and lora_data.get("type") == "LORA":
            return lora_data
        else:
            feedback_message(f"Model with ID {lora_id} is not a LoRA.", "error")
            return None
    except Exception as e:
        feedback_message(f"Error fetching LoRA details: {str(e)}", "error")
        return None
```
The parameters keep the source's names and order; call sites pass
whatever the source passes. -/
def get_lora_details (env : Env)
    (CIVITAI_MODELS CIVITAI_VERSIONS lora_id : PyVal) :
    PyM (Option ModelRecord) :=
  pytry
    (pbind (pcallLookup env (CIVITAI_MODELS, CIVITAI_VERSIONS, lora_id))
      (fun lora_data =>
        match lora_data with
        | some ld =>
          if ld.typ = some "LORA" then pret (some ld)
          else
            pseq (.feedback ("Model with ID " ++ pyValStr lora_id ++
              " is not a LoRA.") "error") (pret none)
        | none =>
          pseq (.feedback ("Model with ID " ++ pyValStr lora_id ++
            " is not a LoRA.") "error") (pret none)))
    (fun e =>
      pseq (.feedback ("Error fetching LoRA details: " ++ pyStr e) "error")
        (pret none))

/-! ## `generate_image` (create.py:78-136) -/

/-- The LoRA loop of `generate_image` (create.py:112-125), threading
the `input_data["additionalNetworks"]` dict.  Note the call-site
argument order at create.py:113 —
`get_lora_details(lora_id, CIVITAI_MODELS, CIVITAI_VERSIONS)` —
which binds `lora_id` (an int) to the `CIVITAI_MODELS` parameter and
`CIVITAI_VERSIONS` to the `lora_id` parameter. -/
def addLoras (env : Env) (CIVITAI_MODELS CIVITAI_VERSIONS : String) :
    List Int → List (String × NetEntry) → PyM (List (String × NetEntry))
  | [], acc => pret acc
  | lora_id :: rest, acc =>
    pbind (get_lora_details env (.int lora_id) (.str CIVITAI_MODELS)
        (.str CIVITAI_VERSIONS))
      (fun lora_data =>
        match lora_data with
        | some ld =>
          match ld.versions with
          | v :: _ =>
            match v.air with
            | some lora_air =>
              pseq (.feedback ("Added LoRA: " ++ lora_air) "info")
                (addLoras env CIVITAI_MODELS CIVITAI_VERSIONS rest
                  (dictInsert acc lora_air ⟨"Lora", ⟨"1.0"⟩⟩))
            | none =>
              pseq (.feedback ("LoRA AIR not found for ID: " ++
                  toString lora_id) "warning")
                (addLoras env CIVITAI_MODELS CIVITAI_VERSIONS rest acc)
          | [] =>
            pseq (.feedback ("Failed to get details for LoRA ID: " ++
                toString lora_id) "warning")
              (addLoras env CIVITAI_MODELS CIVITAI_VERSIONS rest acc)
        | none =>
          pseq (.feedback ("Failed to get details for LoRA ID: " ++
              toString lora_id) "warning")
            (addLoras env CIVITAI_MODELS CIVITAI_VERSIONS rest acc))

/-- The tail of `generate_image` (create.py:127-133): announce, print
the request, submit it. -/
def finishSubmit (env : Env) (input_data : InputData) :
    PyM (Option Response) :=
  pseq (.feedback "Submitting image generation request..." "info")
    (pseq (.consolePrint "Input data:")
      (pseq .printJson
        (pbind (pcreate env input_data)
          (fun response =>
            pseq (.feedback "Image generation request submitted successfully."
                "success")
              (pret response)))))

/-- `generate_image` (create.py:78-136): build `input_data` with the
fixed `seed = -1` and `clipSkip = 1`, add `additionalNetworks` when
`lora_list` is truthy (non-empty), submit; any exception is caught and
converted into an error message, returning `None`. -/
def generate_image (env : Env) (CIVITAI_MODELS CIVITAI_VERSIONS : String)
    (air : String) (pos_prompt : String) (neg_prompt : Option String)
    (width height : Int) (scheduler : Option String) (steps : Int)
    (cfg_scale : PyFloat) (lora_list : List Int) : PyM (Option Response) :=
  pseq (.feedback "Generating the image..." "info")
    (pytry
      (let params : Params :=
        { prompt := pos_prompt, negativePrompt := neg_prompt,
          scheduler := scheduler, steps := steps, cfgScale := cfg_scale,
          width := width, height := height, seed := -1, clipSkip := 1 }
      match lora_list with
      | [] =>
        finishSubmit env
          { model := air, params := params, additionalNetworks := none }
      | _ =>
        pseq (.feedback ("Processing " ++ toString lora_list.length ++
            " LoRA models...") "info")
          (pbind (addLoras env CIVITAI_MODELS CIVITAI_VERSIONS lora_list [])
            (fun nets =>
              finishSubmit env
                { model := air, params := params,
                  additionalNetworks := some nets })))
      (fun e =>
        pseq (.feedback ("Error generating image: " ++ pyStr e) "error")
          (pret none)))

/-! ## `fetch_job_details` (create.py:139-160) and `cancel_job`
(create.py:163-173) -/

/-- `fetch_job_details(job_id, user_id, detailed)`: exactly the
source's `if job_id / elif user_id / else` chain under one
`try/except`.  Optional strings model Python truthiness of the two id
arguments. -/
def fetch_job_details (env : Env) (job_id user_id : Option String)
    (detailed : Bool) : PyM Unit :=
  pytry
    (match jtruthy job_id with
     | some j =>
       pbind (pjobsGet env j)
         (fun job_details =>
           if truthyD job_details then
             pseq (.consolePrint "Job details:") (pseq .printJson (pret ()))
           else pemit (.feedback "No job details found." "warning"))
     | none =>
       match jtruthy user_id with
       | some u =>
         pbind (pjobsQuery env detailed u)
           (fun jobs =>
             if truthyD jobs then
               pseq (.consolePrint "Jobs:") (pseq .printJson (pret ()))
             else
               pemit (.feedback "No jobs found for the given user ID."
                 "warning"))
       | none =>
         pemit (.feedback "Please provide either a job ID or a user ID."
           "error"))
    (fun e =>
      pemit (.feedback ("Error fetching job details: " ++ pyStr e) "error"))

/-- `cancel_job(job_id)` (create.py:163-173). -/
def cancel_job (env : Env) (job_id : String) : PyM Unit :=
  pytry
    (pbind (pjobsCancel env job_id)
      (fun response =>
        if truthyD response then
          pseq (.consolePrint "Job cancellation response:")
            (pseq .printJson (pret ()))
        else pemit (.feedback "Failed to cancel the job." "error")))
    (fun e =>
      pemit (.feedback ("Error cancelling job: " ++ pyStr e) "error"))

/-! ## `create_image_cli` (create.py:176-282) -/

/-- The Python `TypeError` text raised at create.py:272 where
`fetch_job_details(response["jobId"])` supplies one positional
argument to a function declared with three required parameters
(create.py:139).  The exact wording is Python's, reproduced without
the quote characters. -/
def fetchArityMsg : String :=
  "fetch_job_details() missing 2 required positional arguments: user_id and detailed"

/-- Lines 266-279 of `create_image_cli`: handle the value returned by
`generate_image`.  A truthy response is printed; when it carries a
`jobId`, line 272 calls `fetch_job_details(response["jobId"])` with a
single positional argument against a three-parameter declaration, so
Python raises `TypeError` at the call site and lines 273-275 (the
`Job details:` branch) are unreachable. -/
def handleResponse (response : Option Response) : PyM Unit :=
  match response with
  | some r =>
    if r.isEmpty then pemit (.feedback "Image generation failed." "error")
    else
      pseq (.consolePrint "Image generation response:")
        (pseq .printJson
          (if dictHas r "jobId" then pthrow (.typeError fetchArityMsg)
           else pemit (.feedback "No job ID found in the response." "warning")))
  | none => pemit (.feedback "Image generation failed." "error")

/-- Lines 216-264 of `create_image_cli`: the prompt sequence after a
version reference `arn` has been chosen, each numeric conversion
guarded by its own `try/except ValueError`, followed by the call to
`generate_image` and the response handling (create.py:266-279).
A cancelled prompt (`ask()` returning `None`) makes `None.split` /
`int(None)` / `float(None)` raise `AttributeError` / `TypeError`,
which the local `except ValueError` clauses do not catch. -/
def collect (env : Env) (CIVITAI_MODELS CIVITAI_VERSIONS : String)
    (arn : String) (lora_list : List Int) : PyM Unit :=
  pseq (.promptAsk "Enter positive prompt:")
    (match env.posPromptAnswer with
     | none => pemit (.feedback "Positive prompt is required." "error")
     | some pos =>
       if pos = "" then
         pemit (.feedback "Positive prompt is required." "error")
       else
         pseq (.promptAsk "Enter negative prompt (optional):")
           (pseq (.promptAsk "Enter width x height (e.g., 1024x1024):")
             (match env.widthHeightAnswer with
              | none => pthrow (.attrError
                  "NoneType object has no attribute split")
              | some wh =>
                match widthHeightParse wh with
                | none =>
                  pemit (.feedback
                    "Invalid width x height format. Please use format like \u00271024x1024\u0027."
                    "error")
                | some (width, height) =>
                  pseq (.selectAsk "Select scheduler:")
                    (pseq (.promptAsk "Enter number of steps:")
                      (match env.stepsAnswer with
                       | none => pthrow (.typeError
                           "int() argument must be a string, not NoneType")
                       | some st =>
                         match pyParseInt st with
                         | none =>
                           pemit (.feedback
                             "Invalid number of steps. Please enter an integer."
                             "error")
                         | some steps =>
                           pseq (.promptAsk "Enter CFG scale:")
                             (match env.cfgAnswer with
                              | none => pthrow (.typeError
                                  "float() argument must be a string, not NoneType")
                              | some cf =>
                                match pyParseFloat cf with
                                | none =>
                                  pemit (.feedback
                                    "Invalid CFG scale. Please enter a number."
                                    "error")
                                | some cfg_scale =>
                                  pbind (generate_image env CIVITAI_MODELS
                                      CIVITAI_VERSIONS arn pos
                                      env.negPromptAnswer width height
                                      env.schedulerAnswer steps cfg_scale
                                      lora_list)
                                    handleResponse))))))

/-- Lines 192-213 of `create_image_cli`, given `selected_model`: a
selection menu when more than one version exists (a cancelled menu
aborts with an error; the chosen version's `["air"]` raises `KeyError`
when absent), else `versions[0]["air"]` (raising `IndexError` on an
empty list and `KeyError` on a missing `air`), then the prompts. -/
def selectVersion (env : Env) (CIVITAI_MODELS CIVITAI_VERSIONS : String)
    (selected_model : ModelRecord) (lora_list : List Int) : PyM Unit :=
  if selected_model.versions.length > 1 then
    pseq (.selectAsk "Select a version")
      (match env.selectVersionAnswer with
       | some v =>
         match v.air with
         | some arn => collect env CIVITAI_MODELS CIVITAI_VERSIONS arn lora_list
         | none => pthrow (.keyError "air")
       | none => pemit (.feedback "No version selected. Aborting." "error"))
  else
    match selected_model.versions with
    | [] => pthrow (.indexError "list index out of range")
    | v :: _ =>
      match v.air with
      | some arn => collect env CIVITAI_MODELS CIVITAI_VERSIONS arn lora_list
      | none => pthrow (.keyError "air")

/-- Lines 189-213 of `create_image_cli`: choose `selected_model`
(processed when its `versions` list is truthy, else the raw record —
subscripting `None` raises `TypeError`), then pick the version. -/
def afterProcess (env : Env) (CIVITAI_MODELS CIVITAI_VERSIONS : String)
    (raw_model : Option ModelRecord) (processed_model : ModelRecord)
    (lora_list : List Int) : PyM Unit :=
  let smE : Except PyErr ModelRecord :=
    if processed_model.versions.isEmpty then
      match raw_model with
      | some r => .ok r
      | none => .error (.typeError "NoneType object is not subscriptable")
    else .ok processed_model
  match smE with
  | .error e => pthrow e
  | .ok selected_model =>
    selectVersion env CIVITAI_MODELS CIVITAI_VERSIONS selected_model lora_list

/-- The body of `create_image_cli`'s `try` block (create.py:183-279):
fetch and normalize the model record, then continue in
`afterProcess`/`collect`. -/
def createBody (env : Env) (CIVITAI_MODELS CIVITAI_VERSIONS : String)
    (requested_model : Int) (lora_list : List Int) : PyM Unit :=
  pbind (pcallLookup env (.str CIVITAI_MODELS, .str CIVITAI_VERSIONS,
      .int requested_model))
    (fun raw_model =>
      match env.processModelData raw_model with
      | none =>
        pemit (.feedback ("No model found with ID: " ++
          toString requested_model) "error")
      | some processed_model =>
        afterProcess env CIVITAI_MODELS CIVITAI_VERSIONS raw_model
          processed_model lora_list)

/-- The generic `except Exception` handler of `create_image_cli`
(create.py:281-282). -/
def createHandler : PyErr → PyM Unit := fun e =>
  pemit (.feedback ("An unexpected error occurred: " ++ pyStr e) "error")

/-- `create_image_cli` (create.py:176-282): the whole flow inside one
`try/except Exception` whose handler prints the generic error. -/
def create_image_cli (env : Env) (CIVITAI_MODELS CIVITAI_VERSIONS : String)
    (requested_model : Int) (lora_list : List Int) : PyM Unit :=
  pytry (createBody env CIVITAI_MODELS CIVITAI_VERSIONS requested_model
      lora_list)
    createHandler

/-! ## Trace observations -/

/-- Is this event a call to the remote generation service (the
`civitai` SDK client)?  The metadata lookup is a separate external
collaborator (spec section 6) and is not counted here. -/
def isRemote : Event → Bool
  | .netImageCreate _ => true
  | .netJobsGet _ => true
  | .netJobsQuery _ _ => true
  | .netJobsCancel _ => true
  | _ => false

/-- Is this event the submission call `civitai.image.create`? -/
def isImageCreate : Event → Bool
  | .netImageCreate _ => true
  | _ => false

/-- Is this event the `feedback_message("Generating the image...")`
emitted as the first statement of `generate_image`?  Its presence in a
trace witnesses that `generate_image` was invoked. -/
def isGenStart : Event → Bool
  | .feedback m s => s == "info" && m == "Generating the image..."
  | _ => false

/-- Is this event the version-selection menu
(`select("Select a version", ...)` at create.py:200)? -/
def isVersionSelect : Event → Bool
  | .selectAsk t => t == "Select a version"
  | _ => false

/-- The remote-generation-service calls of a trace, in order. -/
def remoteCalls (tr : List Event) : List Event :=
  tr.filter isRemote

/-- Does the trace contain an event satisfying `p`? -/
def hasEvent (p : Event → Bool) (tr : List Event) : Bool :=
  tr.any p

/-- Does the trace contain this exact `feedback_message`? -/
def hasFeedback (tr : List Event) (msg sev : String) : Bool :=
  tr.any (fun e => e == .feedback msg sev)

/-- The requests submitted to `civitai.image.create` in a trace. -/
def submittedReqs (tr : List Event) : List InputData :=
  tr.filterMap (fun e => match e with | .netImageCreate r => some r | _ => none)

/-- The job ids passed to `civitai.jobs.get` in a trace. -/
def jobsGetCalls (tr : List Event) : List String :=
  tr.filterMap (fun e => match e with | .netJobsGet i => some i | _ => none)

/-- The `(detailed, userId)` pairs passed to `civitai.jobs.query`. -/
def jobsQueryCalls (tr : List Event) : List (Bool × String) :=
  tr.filterMap (fun e =>
    match e with | .netJobsQuery d u => some (d, u) | _ => none)

/-- Did a run finish normally (no propagating exception)? -/
def isOkE {α : Type} : Except PyErr α → Bool
  | .ok _ => true
  | .error _ => false

/-- Validation outcomes of the four interactively collected required
fields, as functions of the environment: positive prompt truthy,
width-height parse, step parse, CFG parse. -/
def posOk (env : Env) : Bool :=
  match env.posPromptAnswer with
  | some s => !(s == "")
  | none => false

/-- The width-height answer exists and parses (create.py:225). -/
def whOk (env : Env) : Bool :=
  match env.widthHeightAnswer with
  | some s => (widthHeightParse s).isSome
  | none => false

/-- The steps answer exists and parses as `int` (create.py:237). -/
def stepsOk (env : Env) : Bool :=
  match env.stepsAnswer with
  | some s => (pyParseInt s).isSome
  | none => false

/-- The CFG answer exists and parses as `float` (create.py:246). -/
def cfgOk (env : Env) : Bool :=
  match env.cfgAnswer with
  | some s => (pyParseFloat s).isSome
  | none => false

/-! ## Concrete witnesses: records and environments -/

/-- A checkpoint version with an artifact reference. -/
def verGood : ModelVersion := { id := 1, name := "v1", air := some "urn:air:sdxl" }

/-- A single-version checkpoint record. -/
def recGood : ModelRecord := { typ := some "Checkpoint", versions := [verGood] }

/-- A LoRA version with an artifact reference. -/
def loraVer : ModelVersion := { id := 2, name := "lv", air := some "urn:air:lora" }

/-- A record correctly tagged as a LoRA. -/
def loraRec : ModelRecord := { typ := some "LORA", versions := [loraVer] }

/-- A record with versions but the wrong type tag (not a LoRA). -/
def nonLoraRec : ModelRecord := { typ := some "Checkpoint", versions := [loraVer] }

/-- A remote response carrying a job id. -/
def respJob : Response := [("jobId", .str "job-1")]

/-- A truthy remote response with no job id. -/
def respNoJob : Response := [("status", .str "ok")]

/-- A baseline environment: model 7 resolves to `recGood`, every
prompt is answered with a valid value, and the remote client
succeeds, returning a response without a job id. -/
def envBase : Env :=
  { getModelDetails := fun args =>
      if args = (PyVal.str "M", PyVal.str "V", PyVal.int 7) then
        .ok (some recGood)
      else .ok none
    processModelData := fun r => r
    selectVersionAnswer := none
    posPromptAnswer := some "a cat"
    negPromptAnswer := some ""
    widthHeightAnswer := some "1024x1024"
    schedulerAnswer := some "EulerA"
    stepsAnswer := some "30"
    cfgAnswer := some "7.5"
    imageCreate := fun _ => .ok (some respNoJob)
    jobsGet := fun _ => .ok (some respNoJob)
    jobsQuery := fun _ _ => .ok (some respNoJob)
    jobsCancel := fun _ => .ok (some respNoJob) }

/-! ## Combinator laws -/

theorem pbind_ok {α β : Type} {x : PyM α} {a : α} (h : x.2 = .ok a)
    (f : α → PyM β) : pbind x f = (x.1 ++ (f a).1, (f a).2) := by
  unfold pbind; rw [h]

theorem pbind_err {α β : Type} {x : PyM α} {e : PyErr} (h : x.2 = .error e)
    (f : α → PyM β) : pbind x f = (x.1, .error e) := by
  unfold pbind; rw [h]

theorem pytry_ok {α : Type} {x : PyM α} {a : α} (h : x.2 = .ok a)
    (hd : PyErr → PyM α) : pytry x hd = x := by
  unfold pytry; rw [h]

theorem pytry_err {α : Type} {x : PyM α} {e : PyErr} (h : x.2 = .error e)
    (hd : PyErr → PyM α) : pytry x hd = (x.1 ++ (hd e).1, (hd e).2) := by
  unfold pytry; rw [h]

/-! ## Characterizing `get_lora_details` -/

/-- The pure outcome of `get_lora_details env a b c`: the record when
the lookup succeeds and carries the `LORA` type tag, `None` otherwise
(wrong type, missing record, or an exception caught internally). -/
def loraResult (env : Env) (a b c : PyVal) : Option ModelRecord :=
  match env.getModelDetails (a, b, c) with
  | .ok (some ld) => if ld.typ = some "LORA" then some ld else none
  | _ => none

/-- The feedback messages `get_lora_details env a b c` emits after its
lookup call. -/
def loraMsgs (env : Env) (a b c : PyVal) : List Event :=
  match env.getModelDetails (a, b, c) with
  | .error e => [.feedback ("Error fetching LoRA details: " ++ pyStr e) "error"]
  | .ok (some ld) =>
    if ld.typ = some "LORA" then []
    else [.feedback ("Model with ID " ++ pyValStr c ++ " is not a LoRA.") "error"]
  | .ok none =>
    [.feedback ("Model with ID " ++ pyValStr c ++ " is not a LoRA.") "error"]

theorem get_lora_eq (env : Env) (a b c : PyVal) :
    get_lora_details env a b c =
      (.netModelLookup (a, b, c) :: loraMsgs env a b c,
       .ok (loraResult env a b c)) := by
  unfold get_lora_details loraMsgs loraResult pcallLookup
  rcases h : env.getModelDetails (a, b, c) with e | o
  · simp [pbind, pytry, pseq, pret, h]
  · rcases o with _ | ld
    · simp [pbind, pytry, pseq, pret, h]
    · by_cases hty : ld.typ = some "LORA" <;>
        simp [pbind, pytry, pseq, pret, h, hty]

/-! ## Characterizing the LoRA loop -/

/-- The artifact reference that the loop iteration for `id` would add:
present exactly when the (swapped-argument) lookup yields a `LORA`
record with a nonempty `versions` list whose first version has an
`air`. -/
def loraAirOf (env : Env) (M V : String) (id : Int) : Option String :=
  match loraResult env (.int id) (.str M) (.str V) with
  | some ld =>
    match ld.versions with
    | v :: _ => v.air
    | [] => none
  | none => none

/-- The pure dict computed by the LoRA loop. -/
def addLorasDict (env : Env) (M V : String) :
    List Int → List (String × NetEntry) → List (String × NetEntry)
  | [], acc => acc
  | id :: rest, acc =>
    match loraAirOf env M V id with
    | some a => addLorasDict env M V rest (dictInsert acc a ⟨"Lora", ⟨"1.0"⟩⟩)
    | none => addLorasDict env M V rest acc

theorem addLoras_snd (env : Env) (M V : String) (l : List Int)
    (acc : List (String × NetEntry)) :
    (addLoras env M V l acc).2 = .ok (addLorasDict env M V l acc) := by
  induction l generalizing acc with
  | nil => rfl
  | cons id rest ih =>
    rw [addLoras, addLorasDict, pbind_ok (a := loraResult env (.int id) (.str M) (.str V))
      (by rw [get_lora_eq])]
    unfold loraAirOf
    rcases h : loraResult env (.int id) (.str M) (.str V) with _ | ld <;>
      simp only [h]
    · simp [pseq, ih]
    · rcases hv : ld.versions with _ | ⟨v, vs⟩ <;> simp only [hv]
      · simp [pseq, ih]
      · rcases ha : v.air with _ | a <;> simp only [ha] <;> simp [pseq, ih]

/-- Every message list of `get_lora_details` after the lookup event is
made of feedback events. -/
theorem loraMsgs_shape (env : Env) (a b c : PyVal) (e : Event)
    (he : e ∈ loraMsgs env a b c) : ∃ m s, e = .feedback m s := by
  unfold loraMsgs at he
  rcases h : env.getModelDetails (a, b, c) with e' | o <;> simp only [h] at he
  · simp at he; exact ⟨_, _, he⟩
  · rcases o with _ | ld <;> simp only [] at he
    · simp at he; exact ⟨_, _, he⟩
    · by_cases hty : ld.typ = some "LORA" <;> simp [hty] at he
      exact ⟨_, _, he⟩

/-- Every event of the LoRA loop is a feedback message or a metadata
lookup (in particular: no remote-generation call, no console print,
no prompt). -/
theorem addLoras_shape (env : Env) (M V : String) (l : List Int)
    (acc : List (String × NetEntry)) (e : Event)
    (he : e ∈ (addLoras env M V l acc).1) :
    (∃ m s, e = .feedback m s) ∨ (∃ ar, e = .netModelLookup ar) := by
  induction l generalizing acc with
  | nil => simp [addLoras, pret] at he
  | cons id rest ih =>
    rw [addLoras, pbind_ok (a := loraResult env (.int id) (.str M) (.str V))
      (by rw [get_lora_eq]), get_lora_eq] at he
    simp only [List.cons_append, List.mem_cons, List.mem_append] at he
    rcases he with rfl | he
    · exact .inr ⟨_, rfl⟩
    rcases he with he | he
    · exact .inl (loraMsgs_shape env _ _ _ e he)
    · -- continuation of the loop
      rcases hr : loraResult env (.int id) (.str M) (.str V) with _ | ld <;>
        simp only [hr] at he
      · simp only [pseq, List.mem_cons] at he
        rcases he with rfl | he
        · exact .inl ⟨_, _, rfl⟩
        · exact ih _ he
      · rcases hv : ld.versions with _ | ⟨v, vs⟩ <;> simp only [hv] at he
        · simp only [pseq, List.mem_cons] at he
          rcases he with rfl | he
          · exact .inl ⟨_, _, rfl⟩
          · exact ih _ he
        · rcases ha : v.air with _ | a <;> simp only [ha] at he <;>
            simp only [pseq, List.mem_cons] at he <;>
            rcases he with rfl | he
          · exact .inl ⟨_, _, rfl⟩
          · exact ih _ he
          · exact .inl ⟨_, _, rfl⟩
          · exact ih _ he

/-! ## Characterizing `generate_image` -/

/-- The `params` dict `generate_image` builds (create.py:96-106). -/
def genParams (pos : String) (neg : Option String) (w h : Int)
    (sched : Option String) (steps : Int) (cfg : PyFloat) : Params :=
  { prompt := pos, negativePrompt := neg, scheduler := sched, steps := steps,
    cfgScale := cfg, width := w, height := h, seed := -1, clipSkip := 1 }

/-- The `additionalNetworks` value of the submitted request: the key
is absent exactly when `lora_list` is empty; otherwise it is present,
holding whatever the loop accumulated (possibly the empty dict). -/
def genNets (env : Env) (M V : String) (ll : List Int) :
    Option (List (String × NetEntry)) :=
  match ll with
  | [] => none
  | _ => some (addLorasDict env M V ll [])

/-- The full `input_data` that `generate_image` submits.  Arguments
follow `generate_image`'s parameter order. -/
def genInput (env : Env) (M V air pos : String) (neg : Option String)
    (w h : Int) (sched : Option String) (steps : Int) (cfg : PyFloat)
    (ll : List Int) : InputData :=
  { model := air, params := genParams pos neg w h sched steps cfg,
    additionalNetworks := genNets env M V ll }

/-- The value `generate_image` returns: the raw response, or `None`
when the client raised. -/
def genResp (env : Env) (M V air pos : String) (neg : Option String)
    (w h : Int) (sched : Option String) (steps : Int) (cfg : PyFloat)
    (ll : List Int) : Option Response :=
  match env.imageCreate (genInput env M V air pos neg w h sched steps cfg ll) with
  | .ok r => r
  | .error _ => none

/-- Events of the LoRA-processing phase. -/
def genMid (env : Env) (M V : String) (ll : List Int) : List Event :=
  match ll with
  | [] => []
  | _ =>
    .feedback ("Processing " ++ toString ll.length ++ " LoRA models...")
        "info" :: (addLoras env M V ll []).1

/-- Events of the submission phase, including the success or error
message. -/
def genTail (env : Env) (d : InputData) : List Event :=
  [.feedback "Submitting image generation request..." "info",
   .consolePrint "Input data:", .printJson, .netImageCreate d] ++
  (match env.imageCreate d with
   | .ok _ =>
     [.feedback "Image generation request submitted successfully." "success"]
   | .error e => [.feedback ("Error generating image: " ++ pyStr e) "error"])

theorem finish_ok {env : Env} {d : InputData} {r : Option Response}
    (h : env.imageCreate d = .ok r) :
    finishSubmit env d =
      ([.feedback "Submitting image generation request..." "info",
        .consolePrint "Input data:", .printJson, .netImageCreate d,
        .feedback "Image generation request submitted successfully." "success"],
       .ok r) := by
  unfold finishSubmit pcreate
  simp [pseq, pbind, pret, h]

theorem finish_err {env : Env} {d : InputData} {e : PyErr}
    (h : env.imageCreate d = .error e) :
    finishSubmit env d =
      ([.feedback "Submitting image generation request..." "info",
        .consolePrint "Input data:", .printJson, .netImageCreate d],
       .error e) := by
  unfold finishSubmit pcreate
  simp [pseq, pbind, pret, h]

/-- The error handler of `generate_image`'s `try/except`. -/
def genHandler : PyErr → PyM (Option Response) := fun e =>
  pseq (.feedback ("Error generating image: " ++ pyStr e) "error") (pret none)

theorem gen_eq_aux (env : Env) (d : InputData) :
    pytry (finishSubmit env d) genHandler =
      (genTail env d,
       .ok (match env.imageCreate d with | .ok r => r | .error _ => none)) := by
  rcases h : env.imageCreate d with e | r
  · rw [pytry_err (e := e) (by rw [finish_err h])]
    simp [finish_err h, genTail, genHandler, pseq, pret, h]
  · rw [pytry_ok (a := r) (by rw [finish_ok h])]
    simp [finish_ok h, genTail, h]

theorem gen_eq_aux2 (env : Env) (M V : String) (l : List Int)
    (mk : List (String × NetEntry) → InputData) (ev : Event) :
    pytry (pseq ev (pbind (addLoras env M V l [])
        (fun nets => finishSubmit env (mk nets)))) genHandler =
      (ev :: ((addLoras env M V l []).1 ++
         genTail env (mk (addLorasDict env M V l []))),
       .ok (match env.imageCreate (mk (addLorasDict env M V l [])) with
            | .ok r => r | .error _ => none)) := by
  rw [pbind_ok (addLoras_snd env M V l [])]
  rcases h : env.imageCreate (mk (addLorasDict env M V l [])) with e | r
  · rw [pytry_err (e := e) (by simp [pseq, finish_err h])]
    simp [finish_err h, genTail, genHandler, pseq, pret, h]
  · rw [pytry_ok (a := r) (by simp [pseq, finish_ok h])]
    simp [finish_ok h, genTail, pseq, h]

theorem gen_eq (env : Env) (M V air pos : String) (neg : Option String) (w h : Int)
    (sched : Option String) (steps : Int) (cfg : PyFloat) (ll : List Int) :
    generate_image env M V air pos neg w h sched steps cfg ll =
      (.feedback "Generating the image..." "info" ::
        (genMid env M V ll ++
          genTail env (genInput env M V air pos neg w h sched steps cfg ll)),
       .ok (genResp env M V air pos neg w h sched steps cfg ll)) := by
  cases ll with
  | nil =>
    have h0 : generate_image env M V air pos neg w h sched steps cfg [] =
        pseq (.feedback "Generating the image..." "info")
          (pytry (finishSubmit env
            (genInput env M V air pos neg w h sched steps cfg [])) genHandler) := rfl
    rw [h0, gen_eq_aux]
    simp [pseq, genMid, genResp]
  | cons x xs =>
    have h0 : generate_image env M V air pos neg w h sched steps cfg (x :: xs) =
        pseq (.feedback "Generating the image..." "info")
          (pytry (pseq (.feedback ("Processing " ++ toString (x :: xs).length ++
              " LoRA models...") "info")
            (pbind (addLoras env M V (x :: xs) [])
              (fun nets =>
                finishSubmit env
                  { model := air,
                    params := genParams pos neg w h sched steps cfg,
                    additionalNetworks := some nets }))) genHandler) := rfl
    rw [h0, gen_eq_aux2]
    simp [pseq, genMid, genResp, genInput, genNets]

theorem submittedReqs_append (a b : List Event) :
    submittedReqs (a ++ b) = submittedReqs a ++ submittedReqs b := by
  simp [submittedReqs]

theorem addLoras_no_create (env : Env) (M V : String) (l : List Int)
    (acc : List (String × NetEntry)) :
    submittedReqs (addLoras env M V l acc).1 = [] := by
  rw [submittedReqs, List.filterMap_eq_nil_iff]
  intro e he
  rcases addLoras_shape env M V l acc e he with ⟨m, s, rfl⟩ | ⟨ar, rfl⟩ <;> rfl

theorem genMid_no_create (env : Env) (M V : String) (ll : List Int) :
    submittedReqs (genMid env M V ll) = [] := by
  cases ll with
  | nil => rfl
  | cons x xs =>
    have := addLoras_no_create env M V (x :: xs) []
    simp [genMid, submittedReqs] at this ⊢
    exact this

theorem genTail_submitted (env : Env) (d : InputData) :
    submittedReqs (genTail env d) = [d] := by
  rcases h : env.imageCreate d with e | r <;> simp [genTail, submittedReqs, h]

/-- `generate_image` submits exactly one request: the one described by
`genInput`. -/
theorem gen_submitted (env : Env) (M V air pos : String)
    (neg : Option String) (w h : Int) (sched : Option String) (steps : Int) (cfg : PyFloat)
    (ll : List Int) :
    submittedReqs (generate_image env M V air pos neg w h sched steps cfg ll).1 =
      [genInput env M V air pos neg w h sched steps cfg ll] := by
  rw [gen_eq]
  have h1 : submittedReqs
      (Event.feedback "Generating the image..." "info" ::
        (genMid env M V ll ++
          genTail env (genInput env M V air pos neg w h sched steps cfg ll))) =
      submittedReqs (genMid env M V ll) ++
        submittedReqs (genTail env (genInput env M V air pos neg w h sched steps cfg ll)) := by
    simp [submittedReqs]
  rw [h1, genMid_no_create, genTail_submitted]
  rfl

/-- `generate_image` never propagates an exception; it returns the
response, or `None` when the client raised. -/
theorem gen_snd (env : Env) (M V air pos : String) (neg : Option String) (w h : Int)
    (sched : Option String) (steps : Int) (cfg : PyFloat) (ll : List Int) :
    (generate_image env M V air pos neg w h sched steps cfg ll).2 =
      .ok (genResp env M V air pos neg w h sched steps cfg ll) := by
  rw [gen_eq]

/-- No `questionary` select happens inside `generate_image`. -/
theorem gen_no_select (env : Env) (M V air pos : String)
    (neg : Option String) (w h : Int) (sched : Option String) (steps : Int) (cfg : PyFloat)
    (ll : List Int) (t : String) :
    Event.selectAsk t ∉ (generate_image env M V air pos neg w h sched steps cfg ll).1 := by
  rw [gen_eq]
  intro he
  simp only [List.mem_cons, List.mem_append] at he
  rcases he with he | he | he
  · exact absurd he (by simp)
  · cases ll with
    | nil => simp [genMid] at he
    | cons x xs =>
      simp only [genMid, List.mem_cons] at he
      rcases he with he | he
      · exact absurd he (by simp)
      · rcases addLoras_shape env M V (x :: xs) [] _ he with ⟨m, s, hh⟩ | ⟨ar, hh⟩ <;>
          simp at hh
  · rcases hi : env.imageCreate (genInput env M V air pos neg w h sched steps cfg ll) with
      e | r <;> simp [genTail, hi] at he

/-- The only console print inside `generate_image` is `"Input data:"`. -/
theorem gen_consoles (env : Env) (M V air pos : String)
    (neg : Option String) (w h : Int) (sched : Option String) (steps : Int) (cfg : PyFloat)
    (ll : List Int) (m : String)
    (he : Event.consolePrint m ∈
      (generate_image env M V air pos neg w h sched steps cfg ll).1) :
    m = "Input data:" := by
  rw [gen_eq] at he
  simp only [List.mem_cons, List.mem_append] at he
  rcases he with he | he | he
  · exact absurd he (by simp)
  · exfalso
    cases ll with
    | nil => simp [genMid] at he
    | cons x xs =>
      simp only [genMid, List.mem_cons] at he
      rcases he with he | he
      · exact absurd he (by simp)
      · rcases addLoras_shape env M V (x :: xs) [] _ he with ⟨mm, s, hh⟩ | ⟨ar, hh⟩ <;>
          simp at hh
  · rcases hi : env.imageCreate (genInput env M V air pos neg w h sched steps cfg ll) with
      e | r <;> simp [genTail, hi] at he <;> exact he

/-- Every metadata lookup performed by the LoRA loop uses the argument
triple `(int lora_id, str CIVITAI_MODELS, str CIVITAI_VERSIONS)` for
some `lora_id` of the list — the swapped order of create.py:113. -/
theorem addLoras_lookup_inv (env : Env) (M V : String) (l : List Int)
    (acc : List (String × NetEntry)) (args : PyVal × PyVal × PyVal)
    (he : Event.netModelLookup args ∈ (addLoras env M V l acc).1) :
    ∃ lid, lid ∈ l ∧ args = (.int lid, .str M, .str V) := by
  induction l generalizing acc with
  | nil => simp [addLoras, pret] at he
  | cons id rest ih =>
    rw [addLoras, pbind_ok (a := loraResult env (.int id) (.str M) (.str V))
      (by rw [get_lora_eq]), get_lora_eq] at he
    simp only [List.cons_append, List.mem_cons, List.mem_append] at he
    rcases he with he | he
    · exact ⟨id, by simp, by simpa using he⟩
    rcases he with he | he
    · rcases loraMsgs_shape env _ _ _ _ he with ⟨m, s, hh⟩
      simp at hh
    · have htail : ∃ acc2, Event.netModelLookup args ∈ (addLoras env M V rest acc2).1 := by
        rcases hr : loraResult env (.int id) (.str M) (.str V) with _ | ld <;>
          simp only [hr] at he
        · simp only [pseq, List.mem_cons] at he
          rcases he with hh | he
          · simp at hh
          · exact ⟨_, he⟩
        · rcases hv : ld.versions with _ | ⟨v, vs⟩ <;> simp only [hv] at he
          · simp only [pseq, List.mem_cons] at he
            rcases he with hh | he
            · simp at hh
            · exact ⟨_, he⟩
          · rcases ha : v.air with _ | a <;> simp only [ha] at he <;>
              simp only [pseq, List.mem_cons] at he
            · rcases he with hh | he
              · simp at hh
              · exact ⟨_, he⟩
            · rcases he with hh | he
              · simp at hh
              · exact ⟨_, he⟩
      rcases htail with ⟨acc2, he2⟩
      rcases ih acc2 he2 with ⟨lid, hl, rfl⟩
      exact ⟨lid, by simp [hl], rfl⟩

/-- The loop performs the (swapped-argument) lookup for every id of
the list. -/
theorem addLoras_lookup_mem (env : Env) (M V : String) (l : List Int)
    (acc : List (String × NetEntry)) (id : Int) (hid : id ∈ l) :
    Event.netModelLookup (.int id, .str M, .str V) ∈ (addLoras env M V l acc).1 := by
  induction l generalizing acc with
  | nil => simp at hid
  | cons x rest ih =>
    rw [addLoras, pbind_ok (a := loraResult env (.int x) (.str M) (.str V))
      (by rw [get_lora_eq]), get_lora_eq]
    simp only [List.cons_append, List.mem_cons, List.mem_append]
    rcases List.mem_cons.mp hid with rfl | hid2
    · exact .inl rfl
    · refine .inr (.inr ?_)
      rcases hr : loraResult env (.int x) (.str M) (.str V) with _ | ld <;>
        simp only [hr]
      · simp only [pseq, List.mem_cons]
        exact .inr (ih _ hid2)
      · rcases hv : ld.versions with _ | ⟨v, vs⟩ <;> simp only [hv]
        · simp only [pseq, List.mem_cons]
          exact .inr (ih _ hid2)
        · rcases ha : v.air with _ | a <;> simp only [ha] <;>
            simp only [pseq, List.mem_cons]
          · exact .inr (ih _ hid2)
          · exact .inr (ih _ hid2)

/-- Every metadata lookup inside `generate_image` comes from the LoRA
loop, with the swapped argument order of create.py:113. -/
theorem gen_lookup_inv (env : Env) (M V air pos : String)
    (neg : Option String) (w h : Int) (sched : Option String) (steps : Int) (cfg : PyFloat)
    (ll : List Int) (args : PyVal × PyVal × PyVal)
    (he : Event.netModelLookup args ∈
      (generate_image env M V air pos neg w h sched steps cfg ll).1) :
    ∃ lid, lid ∈ ll ∧ args = (.int lid, .str M, .str V) := by
  rw [gen_eq] at he
  simp only [List.mem_cons, List.mem_append] at he
  rcases he with he | he | he
  · exact absurd he (by simp)
  · cases ll with
    | nil => simp [genMid] at he
    | cons x xs =>
      simp only [genMid, List.mem_cons] at he
      rcases he with he | he
      · exact absurd he (by simp)
      · exact addLoras_lookup_inv env M V (x :: xs) [] args he
  · exfalso
    rcases hi : env.imageCreate (genInput env M V air pos neg w h sched steps cfg ll) with
      e | r <;> simp [genTail, hi] at he

/-- `generate_image` performs the swapped-argument lookup for every id
of its LoRA list. -/
theorem gen_lookup_mem (env : Env) (M V air pos : String)
    (neg : Option String) (w h : Int) (sched : Option String) (steps : Int) (cfg : PyFloat)
    (ll : List Int) (id : Int) (hid : id ∈ ll) :
    Event.netModelLookup (.int id, .str M, .str V) ∈
      (generate_image env M V air pos neg w h sched steps cfg ll).1 := by
  rw [gen_eq]
  simp only [List.mem_cons, List.mem_append]
  refine .inr (.inl ?_)
  cases ll with
  | nil => simp at hid
  | cons x xs =>
    simp only [genMid, List.mem_cons]
    exact .inr (addLoras_lookup_mem env M V (x :: xs) [] id hid)

/-! ## Characterizing the collection phase -/

/-- Events of the response-handling tail (create.py:266-279): console
prints, `printJson`, or a feedback message — crucially, never a
`"Job details:"` print and never a remote call. -/
theorem handleResponse_shape (r : Option Response) (e : Event)
    (he : e ∈ (handleResponse r).1) :
    (∃ m s, e = .feedback m s) ∨
      e = .consolePrint "Image generation response:" ∨ e = .printJson := by
  unfold handleResponse at he
  rcases r with _ | d
  · simp [pemit] at he
    exact .inl ⟨_, _, he⟩
  · cases hd : d.isEmpty <;> simp only [hd] at he
    · cases hj : dictHas d "jobId" <;> simp only [hj] at he <;>
        simp [pseq, pthrow, pemit] at he
      · rcases he with rfl | rfl | rfl
        · exact .inr (.inl rfl)
        · exact .inr (.inr rfl)
        · exact .inl ⟨_, _, rfl⟩
      · rcases he with rfl | rfl
        · exact .inr (.inl rfl)
        · exact .inr (.inr rfl)
    · simp [pemit] at he
      exact .inl ⟨_, _, he⟩

/-- Master case analysis of the collection phase (create.py:216-279):
either one of the validation steps stops the flow with exactly the
events listed, a cancelled prompt raises, or every field validates and
the flow runs `generate_image` on the parsed values and handles its
response. -/
theorem collect_cases (env : Env) (M V arn : String) (ll : List Int) :
    (posOk env = false ∧
      collect env M V arn ll =
        ([.promptAsk "Enter positive prompt:",
          .feedback "Positive prompt is required." "error"], .ok ()))
    ∨ (posOk env = true ∧ env.widthHeightAnswer = none ∧
        collect env M V arn ll =
          ([.promptAsk "Enter positive prompt:",
            .promptAsk "Enter negative prompt (optional):",
            .promptAsk "Enter width x height (e.g., 1024x1024):"],
           .error (.attrError "NoneType object has no attribute split")))
    ∨ (∃ ws, posOk env = true ∧ env.widthHeightAnswer = some ws ∧
        widthHeightParse ws = none ∧
        collect env M V arn ll =
          ([.promptAsk "Enter positive prompt:",
            .promptAsk "Enter negative prompt (optional):",
            .promptAsk "Enter width x height (e.g., 1024x1024):",
            .feedback "Invalid width x height format. Please use format like \u00271024x1024\u0027."
              "error"], .ok ()))
    ∨ (posOk env = true ∧ whOk env = true ∧ env.stepsAnswer = none ∧
        collect env M V arn ll =
          ([.promptAsk "Enter positive prompt:",
            .promptAsk "Enter negative prompt (optional):",
            .promptAsk "Enter width x height (e.g., 1024x1024):",
            .selectAsk "Select scheduler:",
            .promptAsk "Enter number of steps:"],
           .error (.typeError "int() argument must be a string, not NoneType")))
    ∨ (∃ st, posOk env = true ∧ whOk env = true ∧ env.stepsAnswer = some st ∧
        pyParseInt st = none ∧
        collect env M V arn ll =
          ([.promptAsk "Enter positive prompt:",
            .promptAsk "Enter negative prompt (optional):",
            .promptAsk "Enter width x height (e.g., 1024x1024):",
            .selectAsk "Select scheduler:",
            .promptAsk "Enter number of steps:",
            .feedback "Invalid number of steps. Please enter an integer." "error"],
           .ok ()))
    ∨ (posOk env = true ∧ whOk env = true ∧ stepsOk env = true ∧
        env.cfgAnswer = none ∧
        collect env M V arn ll =
          ([.promptAsk "Enter positive prompt:",
            .promptAsk "Enter negative prompt (optional):",
            .promptAsk "Enter width x height (e.g., 1024x1024):",
            .selectAsk "Select scheduler:",
            .promptAsk "Enter number of steps:",
            .promptAsk "Enter CFG scale:"],
           .error (.typeError "float() argument must be a string, not NoneType")))
    ∨ (∃ cf, posOk env = true ∧ whOk env = true ∧ stepsOk env = true ∧
        env.cfgAnswer = some cf ∧ pyParseFloat cf = none ∧
        collect env M V arn ll =
          ([.promptAsk "Enter positive prompt:",
            .promptAsk "Enter negative prompt (optional):",
            .promptAsk "Enter width x height (e.g., 1024x1024):",
            .selectAsk "Select scheduler:",
            .promptAsk "Enter number of steps:",
            .promptAsk "Enter CFG scale:",
            .feedback "Invalid CFG scale. Please enter a number." "error"],
           .ok ()))
    ∨ (∃ pos ws w h st sn cf cfv,
        env.posPromptAnswer = some pos ∧ pos ≠ "" ∧
        env.widthHeightAnswer = some ws ∧ widthHeightParse ws = some (w, h) ∧
        env.stepsAnswer = some st ∧ pyParseInt st = some sn ∧
        env.cfgAnswer = some cf ∧ pyParseFloat cf = some cfv ∧
        collect env M V arn ll =
          ([.promptAsk "Enter positive prompt:",
            .promptAsk "Enter negative prompt (optional):",
            .promptAsk "Enter width x height (e.g., 1024x1024):",
            .selectAsk "Select scheduler:",
            .promptAsk "Enter number of steps:",
            .promptAsk "Enter CFG scale:"] ++
            ((generate_image env M V arn pos env.negPromptAnswer w h
                env.schedulerAnswer sn cfv ll).1 ++
              (handleResponse (genResp env M V arn pos env.negPromptAnswer w h
                env.schedulerAnswer sn cfv ll)).1),
           (handleResponse (genResp env M V arn pos env.negPromptAnswer w h
             env.schedulerAnswer sn cfv ll)).2)) := by
  rcases hp : env.posPromptAnswer with _ | pos
  · refine .inl ⟨by simp [posOk, hp], ?_⟩
    simp [collect, hp, pseq, pemit]
  · by_cases hpe : pos = ""
    · refine .inl ⟨by simp [posOk, hp, hpe], ?_⟩
      simp [collect, hp, hpe, pseq, pemit]
    · have hposok : posOk env = true := by
        simp [posOk, hp]
        exact hpe
      rcases hw : env.widthHeightAnswer with _ | ws
      · refine .inr (.inl ⟨hposok, rfl, ?_⟩)
        simp [collect, hp, hpe, hw, pseq, pthrow]
      · rcases hwp : widthHeightParse ws with _ | ⟨w, hh⟩
        · refine .inr (.inr (.inl ⟨ws, hposok, rfl, hwp, ?_⟩))
          simp [collect, hp, hpe, hw, hwp, pseq, pemit]
        · have hwhok : whOk env = true := by simp [whOk, hw, hwp]
          rcases hs : env.stepsAnswer with _ | st
          · refine .inr (.inr (.inr (.inl ⟨hposok, hwhok, rfl, ?_⟩)))
            simp [collect, hp, hpe, hw, hwp, hs, pseq, pthrow]
          · rcases hsp : pyParseInt st with _ | sn
            · refine .inr (.inr (.inr (.inr (.inl ⟨st, hposok, hwhok, rfl, hsp, ?_⟩))))
              simp [collect, hp, hpe, hw, hwp, hs, hsp, pseq, pemit]
            · have hstok : stepsOk env = true := by simp [stepsOk, hs, hsp]
              rcases hc : env.cfgAnswer with _ | cf
              · refine .inr (.inr (.inr (.inr (.inr (.inl
                  ⟨hposok, hwhok, hstok, rfl, ?_⟩)))))
                simp [collect, hp, hpe, hw, hwp, hs, hsp, hc, pseq, pthrow]
              · rcases hcp : pyParseFloat cf with _ | cfv
                · refine .inr (.inr (.inr (.inr (.inr (.inr (.inl
                    ⟨cf, hposok, hwhok, hstok, rfl, hcp, ?_⟩))))))
                  simp [collect, hp, hpe, hw, hwp, hs, hsp, hc, hcp, pseq, pemit]
                · refine .inr (.inr (.inr (.inr (.inr (.inr (.inr
                    ⟨pos, ws, w, hh, st, sn, cf, cfv, rfl, hpe, rfl, hwp, rfl, hsp,
                     rfl, hcp, ?_⟩))))))
                  have hred : collect env M V arn ll =
                      pseq (.promptAsk "Enter positive prompt:")
                        (pseq (.promptAsk "Enter negative prompt (optional):")
                          (pseq (.promptAsk "Enter width x height (e.g., 1024x1024):")
                            (pseq (.selectAsk "Select scheduler:")
                              (pseq (.promptAsk "Enter number of steps:")
                                (pseq (.promptAsk "Enter CFG scale:")
                                  (pbind (generate_image env M V arn pos
                                      env.negPromptAnswer w hh env.schedulerAnswer
                                      sn cfv ll) handleResponse)))))) := by
                    simp only [collect, hp, hw, hwp, hs, hsp, hc, hcp]
                    rw [if_neg hpe]
                  rw [hred, pbind_ok (gen_snd env M V arn pos env.negPromptAnswer
                    w hh env.schedulerAnswer sn cfv ll)]
                  simp [pseq]

/-! ## Characterizing `create_image_cli` -/

/-- An event that can occur in `create_image_cli` before the
collection phase, or in the generic handler: a metadata lookup, the
version-selection menu, or an error-severity feedback message. -/
def PreEvent (e : Event) : Prop :=
  (∃ ar, e = .netModelLookup ar) ∨ e = .selectAsk "Select a version" ∨
    (∃ m, e = .feedback m "error")

/-- Under the hypotheses that the model resolves, normalizes to a
record with exactly one version, and that version carries an `air`,
`create_image_cli` is the collection phase run on that `air`, guarded
by the generic handler — with no version-selection menu. -/
theorem create_red (env : Env) (M V : String) (rm : Int) (ll : List Int)
    (raw : Option ModelRecord) (pm : ModelRecord) (v : ModelVersion) (a : String)
    (hlk : env.getModelDetails (.str M, .str V, .int rm) = .ok raw)
    (hpm : env.processModelData raw = some pm)
    (hv : pm.versions = [v]) (hair : v.air = some a) :
    create_image_cli env M V rm ll =
      pytry (.netModelLookup (.str M, .str V, .int rm) ::
          (collect env M V a ll).1, (collect env M V a ll).2)
        createHandler := by
  have hbody : createBody env M V rm ll =
      (.netModelLookup (.str M, .str V, .int rm) :: (collect env M V a ll).1,
       (collect env M V a ll).2) := by
    unfold createBody pcallLookup
    rw [pbind_ok (a := raw) (by simpa using hlk)]
    simp [hpm, afterProcess, selectVersion, hv, hair]
  rw [create_image_cli, hbody]

/-- Case analysis of the version-selection step: once
`selected_model` is fixed, the flow either stops before the first
prompt or runs the collection phase on some chosen `arn`. -/
theorem afterSel (env : Env) (M V : String) (rm : Int) (ll : List Int)
    (sel : ModelRecord)
    (hred : createBody env M V rm ll =
      (.netModelLookup (.str M, .str V, .int rm) ::
        (selectVersion env M V sel ll).1, (selectVersion env M V sel ll).2)) :
    (∃ tr, create_image_cli env M V rm ll = (tr, .ok ()) ∧ ∀ e ∈ tr, PreEvent e)
    ∨ (∃ arn pre, (∀ e ∈ pre, PreEvent e) ∧
        create_image_cli env M V rm ll =
          pytry (pre ++ (collect env M V arn ll).1, (collect env M V arn ll).2)
            createHandler) := by
  by_cases hgt : sel.versions.length > 1
  · rcases hsel : env.selectVersionAnswer with _ | v
    · -- menu cancelled: abort with an error message
      have hsv : selectVersion env M V sel ll =
          ([.selectAsk "Select a version",
            .feedback "No version selected. Aborting." "error"], .ok ()) := by
        simp [selectVersion, if_pos hgt, hsel, pseq, pemit]
      refine .inl ⟨[.netModelLookup (.str M, .str V, .int rm),
        .selectAsk "Select a version",
        .feedback "No version selected. Aborting." "error"], ?_, ?_⟩
      · unfold create_image_cli
        rw [hred, hsv, pytry_ok (a := ()) rfl]
      · intro x hx
        simp at hx
        rcases hx with rfl | rfl | rfl
        · exact .inl ⟨_, rfl⟩
        · exact .inr (.inl rfl)
        · exact .inr (.inr ⟨_, rfl⟩)
    · rcases hair : v.air with _ | arn
      · -- chosen version has no `air`: KeyError, generic handler
        have hsv : selectVersion env M V sel ll =
            ([.selectAsk "Select a version"], .error (.keyError "air")) := by
          simp [selectVersion, if_pos hgt, hsel, hair, pseq, pthrow]
        refine .inl ⟨[.netModelLookup (.str M, .str V, .int rm),
          .selectAsk "Select a version",
          .feedback ("An unexpected error occurred: " ++
            pyStr (.keyError "air")) "error"], ?_, ?_⟩
        · unfold create_image_cli
          rw [hred, hsv, pytry_err (e := .keyError "air") rfl]
          simp [createHandler, pemit]
        · intro x hx
          simp at hx
          rcases hx with rfl | rfl | rfl
          · exact .inl ⟨_, rfl⟩
          · exact .inr (.inl rfl)
          · exact .inr (.inr ⟨_, rfl⟩)
      · -- menu choice accepted: proceed to the prompts
        have hsv : selectVersion env M V sel ll =
            (.selectAsk "Select a version" :: (collect env M V arn ll).1,
             (collect env M V arn ll).2) := by
          simp [selectVersion, if_pos hgt, hsel, hair, pseq]
        refine .inr ⟨arn, [.netModelLookup (.str M, .str V, .int rm),
          .selectAsk "Select a version"], ?_, ?_⟩
        · intro x hx
          simp at hx
          rcases hx with rfl | rfl
          · exact .inl ⟨_, rfl⟩
          · exact .inr (.inl rfl)
        · unfold create_image_cli
          rw [hred, hsv]
          rfl
  · rcases hv : sel.versions with _ | ⟨v, vs⟩
    · -- no versions at all: IndexError, generic handler
      have hsv : selectVersion env M V sel ll =
          ([], .error (.indexError "list index out of range")) := by
        simp only [selectVersion]
        rw [if_neg hgt]
        simp [hv, pthrow]
      refine .inl ⟨[.netModelLookup (.str M, .str V, .int rm),
        .feedback ("An unexpected error occurred: " ++
          pyStr (.indexError "list index out of range")) "error"], ?_, ?_⟩
      · unfold create_image_cli
        rw [hred, hsv, pytry_err (e := .indexError "list index out of range") rfl]
        simp [createHandler, pemit]
      · intro x hx
        simp at hx
        rcases hx with rfl | rfl
        · exact .inl ⟨_, rfl⟩
        · exact .inr (.inr ⟨_, rfl⟩)
    · rcases hair : v.air with _ | arn
      · -- single version without `air`: KeyError, generic handler
        have hsv : selectVersion env M V sel ll =
            ([], .error (.keyError "air")) := by
          simp only [selectVersion]
          rw [if_neg hgt]
          simp [hv, hair, pthrow]
        refine .inl ⟨[.netModelLookup (.str M, .str V, .int rm),
          .feedback ("An unexpected error occurred: " ++
            pyStr (.keyError "air")) "error"], ?_, ?_⟩
        · unfold create_image_cli
          rw [hred, hsv, pytry_err (e := .keyError "air") rfl]
          simp [createHandler, pemit]
        · intro x hx
          simp at hx
          rcases hx with rfl | rfl
          · exact .inl ⟨_, rfl⟩
          · exact .inr (.inr ⟨_, rfl⟩)
      · -- single version used directly
        have hsv : selectVersion env M V sel ll =
            ((collect env M V arn ll).1, (collect env M V arn ll).2) := by
          simp only [selectVersion]
          rw [if_neg hgt]
          simp [hv, hair]
        refine .inr ⟨arn, [.netModelLookup (.str M, .str V, .int rm)], ?_, ?_⟩
        · intro x hx
          simp at hx
          subst hx
          exact .inl ⟨_, rfl⟩
        · unfold create_image_cli
          rw [hred, hsv]
          rfl

/-- Master case analysis of `create_image_cli`: either the flow stops
(normally or through the generic handler) before the first prompt,
with only lookup/menu/error-feedback events, or some version
reference `arn` is chosen and the run is the collection phase guarded
by the generic handler, preceded by such events. -/
theorem create_cases (env : Env) (M V : String) (rm : Int) (ll : List Int) :
    (∃ tr, create_image_cli env M V rm ll = (tr, .ok ()) ∧ ∀ e ∈ tr, PreEvent e)
    ∨ (∃ arn pre, (∀ e ∈ pre, PreEvent e) ∧
        create_image_cli env M V rm ll =
          pytry (pre ++ (collect env M V arn ll).1, (collect env M V arn ll).2)
            createHandler) := by
  rcases hlk : env.getModelDetails (.str M, .str V, .int rm) with e | raw
  · -- the metadata lookup itself raised
    refine .inl ⟨[.netModelLookup (.str M, .str V, .int rm),
      .feedback ("An unexpected error occurred: " ++ pyStr e) "error"], ?_, ?_⟩
    · unfold create_image_cli createBody pcallLookup
      rw [pbind_err (e := e) (by simpa using hlk)]
      rw [pytry_err (e := e) rfl]
      simp [createHandler, pemit]
    · intro x hx
      simp at hx
      rcases hx with rfl | rfl
      · exact .inl ⟨_, rfl⟩
      · exact .inr (.inr ⟨_, rfl⟩)
  · have hbody0 : ∀ k : Option ModelRecord → PyM Unit,
        pbind (pcallLookup env (.str M, .str V, .int rm)) k =
          (.netModelLookup (.str M, .str V, .int rm) :: (k raw).1, (k raw).2) := by
      intro k
      unfold pcallLookup
      rw [pbind_ok (a := raw) (by simpa using hlk)]
      rfl
    rcases hpm : env.processModelData raw with _ | pm
    · -- processed record falsy
      refine .inl ⟨[.netModelLookup (.str M, .str V, .int rm),
        .feedback ("No model found with ID: " ++ toString rm) "error"], ?_, ?_⟩
      · unfold create_image_cli createBody
        rw [hbody0]
        simp only [hpm]
        rw [pytry_ok (a := ()) (by simp [pemit])]
        simp [pemit]
      · intro x hx
        simp at hx
        rcases hx with rfl | rfl
        · exact .inl ⟨_, rfl⟩
        · exact .inr (.inr ⟨_, rfl⟩)
    · -- processed record truthy: version selection
      by_cases hone : pm.versions.isEmpty
      · rcases raw with _ | r
        · -- `None` raw model: subscripting raises, generic handler
          refine .inl ⟨[.netModelLookup (.str M, .str V, .int rm),
            .feedback ("An unexpected error occurred: " ++
              pyStr (.typeError "NoneType object is not subscriptable")) "error"], ?_, ?_⟩
          · unfold create_image_cli createBody
            rw [hbody0]
            simp only [hpm, afterProcess, hone]
            rw [pytry_err (e := .typeError "NoneType object is not subscriptable")
              (by simp [if_pos hone, pthrow])]
            simp [createHandler, pemit, pthrow, if_pos hone]
          · intro x hx
            simp at hx
            rcases hx with rfl | rfl
            · exact .inl ⟨_, rfl⟩
            · exact .inr (.inr ⟨_, rfl⟩)
        · -- fall back to the raw record
          refine afterSel env M V rm ll r ?_
          unfold createBody
          rw [hbody0]
          simp only [hpm, afterProcess, if_pos hone]
      · refine afterSel env M V rm ll pm ?_
        unfold createBody
        rw [hbody0]
        simp only [hpm, afterProcess, if_neg hone]

/-! ## Small trace utilities -/

theorem hasFeedback_of_mem {tr : List Event} {m s : String}
    (h : Event.feedback m s ∈ tr) : hasFeedback tr m s = true := by
  rw [hasFeedback, List.any_eq_true]
  exact ⟨_, h, by simp⟩

theorem hasEvent_eq_false {p : Event → Bool} {tr : List Event}
    (h : ∀ e ∈ tr, p e = false) : hasEvent p tr = false := by
  rw [hasEvent]
  exact List.any_eq_false.mpr fun x hx => by simp [h x hx]

theorem mem_submittedReqs {tr : List Event} {req : InputData} :
    req ∈ submittedReqs tr ↔ Event.netImageCreate req ∈ tr := by
  rw [submittedReqs, List.mem_filterMap]
  constructor
  · rintro ⟨e, he, hf⟩
    cases e <;> simp at hf
    exact hf ▸ he
  · intro h
    exact ⟨_, h, rfl⟩

theorem preEvents_hasEvent_false {tr : List Event} (hp : ∀ e ∈ tr, PreEvent e)
    (p : Event → Bool) (h1 : ∀ ar, p (.netModelLookup ar) = false)
    (h2 : p (.selectAsk "Select a version") = false)
    (h3 : ∀ m, p (.feedback m "error") = false) :
    hasEvent p tr = false := by
  refine hasEvent_eq_false fun e he => ?_
  rcases hp e he with ⟨ar, rfl⟩ | rfl | ⟨m, rfl⟩
  · exact h1 ar
  · exact h2
  · exact h3 m

/-- The full trace of a run that reached the collection phase:
the pre-phase events, the collection events, and — when the
collection phase propagated an exception — the generic handler's
message. -/
theorem create_reached_trace (env : Env) (M V : String) (rm : Int)
    (ll : List Int) (arn : String) (pre : List Event)
    (heq : create_image_cli env M V rm ll =
      pytry (pre ++ (collect env M V arn ll).1, (collect env M V arn ll).2)
        createHandler) :
    (create_image_cli env M V rm ll).1 =
      pre ++ (collect env M V arn ll).1 ++
        (match (collect env M V arn ll).2 with
         | .error e =>
           [Event.feedback ("An unexpected error occurred: " ++ pyStr e) "error"]
         | .ok _ => []) := by
  rcases hc : (collect env M V arn ll).2 with e | a
  · rw [heq, pytry_err
      (x := (pre ++ (collect env M V arn ll).1, (collect env M V arn ll).2))
      (e := e) hc]
    simp [createHandler, pemit, hc]
  · rw [heq, pytry_ok
      (x := (pre ++ (collect env M V arn ll).1, (collect env M V arn ll).2))
      (a := a) hc]
    simp [hc]

/-- In a run that reached the collection phase, any event class that
cannot occur in the pre-phase or in the generic handler occurs exactly
as often as in the collection phase. -/
theorem create_hasEvent_reached (env : Env) (M V : String) (rm : Int)
    (ll : List Int) (arn : String) (pre : List Event)
    (hpre : ∀ e ∈ pre, PreEvent e)
    (heq : create_image_cli env M V rm ll =
      pytry (pre ++ (collect env M V arn ll).1, (collect env M V arn ll).2)
        createHandler)
    (p : Event → Bool) (h1 : ∀ ar, p (.netModelLookup ar) = false)
    (h2 : p (.selectAsk "Select a version") = false)
    (h3 : ∀ m, p (.feedback m "error") = false) :
    hasEvent p (create_image_cli env M V rm ll).1 =
      hasEvent p (collect env M V arn ll).1 := by
  rw [create_reached_trace env M V rm ll arn pre heq]
  have hpre0 : pre.any p = false :=
    List.any_eq_false.mpr fun x hx => by
      rcases hpre x hx with ⟨ar, rfl⟩ | rfl | ⟨m, rfl⟩ <;>
        simp [h1, h2, h3]
  have htail : (match (collect env M V arn ll).2 with
      | .error e =>
        [Event.feedback ("An unexpected error occurred: " ++ pyStr e) "error"]
      | .ok _ => ([] : List Event)).any p = false := by
    rcases (collect env M V arn ll).2 with e | a <;> simp [h3]
  rw [hasEvent, hasEvent, List.any_append, List.any_append, hpre0, htail]
  simp

/-- `isVersionSelect` holds only for the version-selection menu. -/
theorem isVersionSelect_eq {e : Event} (h : isVersionSelect e = true) :
    e = .selectAsk "Select a version" := by
  cases e <;> simp [isVersionSelect] at h
  simp [h]

/-- A `try/except` over a `None`-returning body whose handler always
completes normally never propagates an exception. -/
theorem pytry_unit_ok {x : PyM Unit} {H : PyErr → PyM Unit}
    (hH : ∀ e, (H e).2 = .ok ()) : (pytry x H).2 = .ok () := by
  rcases hx : x.2 with e | a
  · rw [pytry_err (e := e) hx]
    exact hH e
  · rw [pytry_ok (a := a) hx, hx]

/-! ## The claims -/

/-- C7: the job-lookup entry point `fetch_job_details` requires
exactly one of job id and user id: with a (truthy) job id it queries
`civitai.jobs.get` for that job and performs no user query; with no
job id but a (truthy) user id it queries `civitai.jobs.query` for that
user with the given `detailed` flag and performs no job fetch; with
neither it emits the error `"Please provide either a job ID or a user
ID."` and performs no remote call at all. -/
theorem fetch_requires_exactly_one (env : Env) (j u : Option String)
    (d : Bool) (s t : String) :
    (jtruthy j = some s →
      jobsGetCalls (fetch_job_details env j u d).1 = [s] ∧
      jobsQueryCalls (fetch_job_details env j u d).1 = [])
    ∧ (jtruthy j = none → jtruthy u = some t →
      jobsQueryCalls (fetch_job_details env j u d).1 = [(d, t)] ∧
      jobsGetCalls (fetch_job_details env j u d).1 = [])
    ∧ (jtruthy j = none → jtruthy u = none →
      hasFeedback (fetch_job_details env j u d).1
        "Please provide either a job ID or a user ID." "error" = true ∧
      remoteCalls (fetch_job_details env j u d).1 = []) := by
  refine ⟨?_, ?_, ?_⟩
  · intro hj
    simp only [fetch_job_details, hj]
    rcases hre : env.jobsGet s with e | r
    · rw [pbind_err (x := pjobsGet env s) (e := e) hre,
        pytry_err (e := e) rfl]
      simp [pjobsGet, jobsGetCalls, jobsQueryCalls, pemit]
    · rw [pbind_ok (x := pjobsGet env s) (a := r) hre]
      cases htd : truthyD r
      · rw [pytry_ok (a := ()) (by simp [htd, pemit])]
        simp [pjobsGet, htd, jobsGetCalls, jobsQueryCalls, pemit]
      · rw [pytry_ok (a := ()) (by simp [htd, pseq, pret])]
        simp [pjobsGet, htd, jobsGetCalls, jobsQueryCalls, pseq, pret]
  · intro hj hu
    simp only [fetch_job_details, hj, hu]
    rcases hre : env.jobsQuery d t with e | r
    · rw [pbind_err (x := pjobsQuery env d t) (e := e) hre,
        pytry_err (e := e) rfl]
      simp [pjobsQuery, jobsGetCalls, jobsQueryCalls, pemit]
    · rw [pbind_ok (x := pjobsQuery env d t) (a := r) hre]
      cases htd : truthyD r
      · rw [pytry_ok (a := ()) (by simp [htd, pemit])]
        simp [pjobsQuery, htd, jobsGetCalls, jobsQueryCalls, pemit]
      · rw [pytry_ok (a := ()) (by simp [htd, pseq, pret])]
        simp [pjobsQuery, htd, jobsGetCalls, jobsQueryCalls, pseq, pret]
  · intro hj hu
    simp only [fetch_job_details, hj, hu]
    rw [pytry_ok (a := ()) (by simp [pemit])]
    refine ⟨hasFeedback_of_mem (by simp [pemit]), ?_⟩
    simp [pemit, remoteCalls, isRemote]

/-- C7 witness: with job id `"abc123"` and no user id, exactly that
job is fetched and no user query happens. -/
theorem fetch_requires_exactly_one_witness :
    jobsGetCalls (fetch_job_details envBase (some "abc123") none false).1 =
      ["abc123"] ∧
    jobsQueryCalls (fetch_job_details envBase (some "abc123") none false).1 = [] :=
  (fetch_requires_exactly_one envBase (some "abc123") none false "abc123" "").1
    (by decide)

/-- An environment whose remote job client always raises. -/
def envJobsErr : Env :=
  { envBase with
    jobsGet := fun _ => .error (.remote "boom"),
    jobsCancel := fun _ => .error (.remote "boom2") }

/-- C8: neither Job Reporter entry point lets a remote-client
exception propagate: `fetch_job_details` and `cancel_job` always
return normally (`None`), and when the client raises, the exception
text is converted into a user-facing error feedback message. -/
theorem job_reporter_never_raises (env : Env) (j u : Option String)
    (d : Bool) (jid s : String) (e1 e2 : PyErr) :
    (fetch_job_details env j u d).2 = .ok ()
    ∧ (cancel_job env jid).2 = .ok ()
    ∧ (jtruthy j = some s → env.jobsGet s = .error e1 →
        hasFeedback (fetch_job_details env j u d).1
          ("Error fetching job details: " ++ pyStr e1) "error" = true)
    ∧ (env.jobsCancel jid = .error e2 →
        hasFeedback (cancel_job env jid).1
          ("Error cancelling job: " ++ pyStr e2) "error" = true) := by
  refine ⟨?_, ?_, ?_, ?_⟩
  · simp only [fetch_job_details]
    exact pytry_unit_ok fun e => rfl
  · simp only [cancel_job]
    exact pytry_unit_ok fun e => rfl
  · intro hj he1
    simp only [fetch_job_details, hj]
    rw [pbind_err (x := pjobsGet env s) (e := e1) he1,
      pytry_err (e := e1) rfl]
    exact hasFeedback_of_mem (by simp [pjobsGet, pemit])
  · intro he2
    simp only [cancel_job]
    rw [pbind_err (x := pjobsCancel env jid) (e := e2) he2,
      pytry_err (e := e2) rfl]
    exact hasFeedback_of_mem (by simp [pjobsCancel, pemit])

/-- C8 witness: with an always-raising client, both entry points
return normally and emit the converted error messages. -/
theorem job_reporter_never_raises_witness :
    (fetch_job_details envJobsErr (some "abc123") none false).2 = .ok ()
    ∧ (cancel_job envJobsErr "j1").2 = .ok ()
    ∧ hasFeedback (fetch_job_details envJobsErr (some "abc123") none false).1
        ("Error fetching job details: " ++ pyStr (.remote "boom")) "error" = true
    ∧ hasFeedback (cancel_job envJobsErr "j1").1
        ("Error cancelling job: " ++ pyStr (.remote "boom2")) "error" = true := by
  have h := job_reporter_never_raises envJobsErr (some "abc123") none false
    "j1" "abc123" (.remote "boom") (.remote "boom2")
  exact ⟨h.1, h.2.1, h.2.2.1 (by decide) rfl, h.2.2.2 rfl⟩

/-- The loop step for an id that contributes no artifact reference
leaves the dict unchanged wherever it occurs in the list. -/
theorem addLorasDict_skip (env : Env) (M V : String) (id : Int)
    (hnone : loraAirOf env M V id = none) (post : List Int) :
    ∀ (pre : List Int) (acc : List (String × NetEntry)),
      addLorasDict env M V (pre ++ id :: post) acc =
        addLorasDict env M V (pre ++ post) acc := by
  intro pre
  induction pre with
  | nil => intro acc; simp [addLorasDict, hnone]
  | cons p pr ih =>
    intro acc
    simp only [List.cons_append, addLorasDict]
    cases loraAirOf env M V p <;> simp [ih]

/-- An id whose resolution yields no LoRA record draws the
`Failed to get details` warning wherever it occurs in the list. -/
theorem addLoras_warn_mem (env : Env) (M V : String) (id : Int)
    (hnone : loraResult env (.int id) (.str M) (.str V) = none)
    (post : List Int) :
    ∀ (pre : List Int) (acc : List (String × NetEntry)),
      Event.feedback ("Failed to get details for LoRA ID: " ++ toString id)
        "warning" ∈ (addLoras env M V (pre ++ id :: post) acc).1 := by
  intro pre
  induction pre with
  | nil =>
    intro acc
    rw [List.nil_append, addLoras,
      pbind_ok (a := loraResult env (.int id) (.str M) (.str V))
        (by rw [get_lora_eq]), get_lora_eq]
    simp only [hnone, pseq]
    simp
  | cons p pr ih =>
    intro acc
    rw [List.cons_append, addLoras,
      pbind_ok (a := loraResult env (.int p) (.str M) (.str V))
        (by rw [get_lora_eq]), get_lora_eq]
    simp only [List.cons_append, List.mem_cons, List.mem_append]
    refine .inr (.inr ?_)
    rcases hr : loraResult env (.int p) (.str M) (.str V) with _ | ld <;>
      simp only [hr]
    · simp only [pseq, List.mem_cons]
      exact .inr (ih _)
    · rcases hv : ld.versions with _ | ⟨v, vs⟩ <;> simp only [hv]
      · simp only [pseq, List.mem_cons]
        exact .inr (ih _)
      · rcases ha : v.air with _ | a <;> simp only [ha] <;>
          simp only [pseq, List.mem_cons]
        · exact .inr (ih _)
        · exact .inr (ih _)

/-- C5: a LoRA identifier whose metadata resolution (as the code
performs it) returns a record not tagged `LORA` contributes nothing
to the `additionalNetworks` mapping — the loop result with that entry
equals the loop result without it — and a severity-`warning` message
naming the id is emitted for it; and `get_lora_details` never
propagates an exception, whatever its arguments and environment. -/
theorem lora_wrong_type_excluded (env : Env) (M V : String)
    (pre post : List Int) (id : Int) (acc : List (String × NetEntry))
    (r : ModelRecord) (a b c : PyVal)
    (hlk : env.getModelDetails (.int id, .str M, .str V) = .ok (some r))
    (hty : r.typ ≠ some "LORA") :
    (addLoras env M V (pre ++ id :: post) acc).2 =
      (addLoras env M V (pre ++ post) acc).2
    ∧ hasFeedback (addLoras env M V (pre ++ id :: post) acc).1
        ("Failed to get details for LoRA ID: " ++ toString id) "warning" = true
    ∧ isOkE (get_lora_details env a b c).2 = true := by
  have hres : loraResult env (.int id) (.str M) (.str V) = none := by
    simp [loraResult, hlk, hty]
  have hairn : loraAirOf env M V id = none := by
    simp [loraAirOf, hres]
  refine ⟨?_, ?_, ?_⟩
  · rw [addLoras_snd, addLoras_snd, addLorasDict_skip env M V id hairn post pre acc]
  · exact hasFeedback_of_mem (addLoras_warn_mem env M V id hres post pre acc)
  · rw [get_lora_eq]
    rfl

/-- An environment where id 5 resolves (with the code's argument
order) to a record that is not a LoRA. -/
def envLora5 : Env :=
  { envBase with
    getModelDetails := fun args =>
      if args = (PyVal.int 5, PyVal.str "M", PyVal.str "V") then
        .ok (some nonLoraRec)
      else .ok none }

/-- C5 witness. -/
theorem lora_wrong_type_excluded_witness :
    (addLoras envLora5 "M" "V" [5] []).2 = (addLoras envLora5 "M" "V" [] []).2
    ∧ hasFeedback (addLoras envLora5 "M" "V" [5] []).1
        ("Failed to get details for LoRA ID: " ++ toString (5 : Int))
        "warning" = true
    ∧ isOkE (get_lora_details envLora5 (.int 5) (.str "M") (.str "V")).2 = true :=
  lora_wrong_type_excluded envLora5 "M" "V" [] [] 5 [] nonLoraRec
    (.int 5) (.str "M") (.str "V") rfl (by decide)

/-- C10: `generate_image` calls `get_lora_details` with the positional
arguments `(lora_id, CIVITAI_MODELS, CIVITAI_VERSIONS)` although the
function is declared `(CIVITAI_MODELS, CIVITAI_VERSIONS, lora_id)`:
for every id of the list the performed metadata lookup carries the
triple `(int lora_id, str CIVITAI_MODELS, str CIVITAI_VERSIONS)`, and
every lookup it performs has the `CIVITAI_VERSIONS` string — not the
requested identifier — in the id position. -/
theorem lora_call_swaps_arguments (env : Env) (M V air pos : String)
    (neg : Option String) (w h : Int) (sched : Option String) (steps : Int)
    (cfg : PyFloat) (pre post : List Int) (id : Int)
    (args : PyVal × PyVal × PyVal)
    (hargs : Event.netModelLookup args ∈
      (generate_image env M V air pos neg w h sched steps cfg
        (pre ++ id :: post)).1) :
    Event.netModelLookup (.int id, .str M, .str V) ∈
      (generate_image env M V air pos neg w h sched steps cfg
        (pre ++ id :: post)).1
    ∧ (∃ lid, lid ∈ pre ++ id :: post ∧ args = (.int lid, .str M, .str V))
    ∧ args.2.2 = .str V
    ∧ PyVal.str V ≠ PyVal.int id := by
  have hinv := gen_lookup_inv env M V air pos neg w h sched steps cfg _ args hargs
  refine ⟨gen_lookup_mem env M V air pos neg w h sched steps cfg _ id (by simp),
    hinv, ?_, by simp⟩
  rcases hinv with ⟨lid, _, rfl⟩
  rfl

/-- C10 witness. -/
theorem lora_call_swaps_arguments_witness :
    Event.netModelLookup (.int 9, .str "M", .str "V") ∈
      (generate_image envBase "M" "V" "a" "p" none 10 10 none 5 ⟨"7.5"⟩ [9]).1
    ∧ (∃ lid, lid ∈ ([9] : List Int) ∧
        ((.int 9, .str "M", .str "V") : PyVal × PyVal × PyVal) =
          (.int lid, .str "M", .str "V"))
    ∧ ((.int 9, .str "M", .str "V") : PyVal × PyVal × PyVal).2.2 = .str "V"
    ∧ PyVal.str "V" ≠ PyVal.int 9 :=
  lora_call_swaps_arguments envBase "M" "V" "a" "p" none 10 10 none 5 ⟨"7.5"⟩
    [] [] 9 (.int 9, .str "M", .str "V") (by decide)

/-- Python dict assignment adds the assigned pair or leaves existing
entries. -/
theorem dictInsert_mem {d : List (String × NetEntry)} {k : String}
    {v : NetEntry} {kv : String × NetEntry} (h : kv ∈ dictInsert d k v) :
    kv ∈ d ∨ kv = (k, v) := by
  unfold dictInsert at h
  by_cases hk : d.any (fun p => p.1 == k) = true
  · rw [if_pos hk] at h
    rcases List.mem_map.mp h with ⟨p, hp, hkv⟩
    by_cases hpk : (p.1 == k) = true
    · rw [if_pos hpk] at hkv
      exact .inr hkv.symm
    · rw [if_neg hpk] at hkv
      exact .inl (hkv ▸ hp)
  · rw [if_neg hk] at h
    rcases List.mem_append.mp h with hd | hkv
    · exact .inl hd
    · simp at hkv
      exact .inr (by simp [hkv])

/-- Every entry of the dict built by the LoRA loop either was already
in the accumulator or maps some list id's first-version `air` to the
fixed `{type: Lora, strength: 1.0}` value. -/
theorem addLorasDict_entries (env : Env) (M V : String) :
    ∀ (l : List Int) (acc : List (String × NetEntry))
      (kv : String × NetEntry), kv ∈ addLorasDict env M V l acc →
      kv ∈ acc ∨ (kv.2 = ⟨"Lora", ⟨"1.0"⟩⟩ ∧
        ∃ id, id ∈ l ∧ loraAirOf env M V id = some kv.1)
  | [], acc, kv, h => .inl (by simpa [addLorasDict] using h)
  | id :: rest, acc, kv, h => by
    rw [addLorasDict] at h
    rcases ha : loraAirOf env M V id with _ | a <;> simp only [ha] at h
    · rcases addLorasDict_entries env M V rest acc kv h with hl | ⟨h2, lid, hmem, hair⟩
      · exact .inl hl
      · exact .inr ⟨h2, lid, by simp [hmem], hair⟩
    · rcases addLorasDict_entries env M V rest _ kv h with hl | ⟨h2, lid, hmem, hair⟩
      · rcases dictInsert_mem hl with hacc | rfl
        · exact .inl hacc
        · exact .inr ⟨rfl, id, by simp, by simp [ha]⟩
      · exact .inr ⟨h2, lid, by simp [hmem], hair⟩

/-- C6 counterexample: with the single LoRA id 5, whose lookup yields
no record, the submitted request still carries the
`additionalNetworks` key holding the empty mapping — the key is
merged although the mapping is empty, refuting "merged only when that
mapping is non-empty" (the code keys the merge on the LoRA *list*
being non-empty, create.py:109-110). -/
theorem gen_request_fields_counterexample :
    (submittedReqs (generate_image envBase "M" "V" "urn:air:sdxl" "a cat"
      (some "") 1024 1024 (some "EulerA") 30 ⟨"7.5"⟩ [5]).1).map
        (fun r => r.additionalNetworks) = [some []] := by decide

/-- C6 (amended): the submitted request's params are exactly the
prompt, negative prompt, scheduler, steps, CFG scale, width, height,
the fixed seed sentinel `-1` and clip-skip constant `1`; the
`additionalNetworks` key is merged in exactly when the supplied LoRA
list is non-empty (the mapping itself may be empty when every entry
failed); and each retained entry maps a list id's first-version `air`
reference to `{type: Lora, strength: 1.0}`. -/
theorem gen_request_fields (env : Env) (M V air pos : String)
    (neg : Option String) (w h : Int) (sched : Option String) (steps : Int)
    (cfg : PyFloat) (ll : List Int) (req : InputData)
    (m : List (String × NetEntry)) (kv : String × NetEntry)
    (hreq : Event.netImageCreate req ∈
      (generate_image env M V air pos neg w h sched steps cfg ll).1) :
    req.model = air
    ∧ req.params = { prompt := pos, negativePrompt := neg, scheduler := sched,
                     steps := steps, cfgScale := cfg, width := w, height := h,
                     seed := -1, clipSkip := 1 }
    ∧ (req.additionalNetworks = none ↔ ll = [])
    ∧ (req.additionalNetworks = some m → kv ∈ m →
        kv.2 = ⟨"Lora", ⟨"1.0"⟩⟩ ∧
          ∃ id, id ∈ ll ∧ loraAirOf env M V id = some kv.1) := by
  have hr : req = genInput env M V air pos neg w h sched steps cfg ll := by
    have h0 := mem_submittedReqs.mpr hreq
    rw [gen_submitted] at h0
    simpa using h0
  subst hr
  refine ⟨rfl, rfl, ?_, ?_⟩
  · cases ll <;> simp [genInput, genNets]
  · intro hm hkv
    cases ll with
    | nil => simp [genInput, genNets] at hm
    | cons x xs =>
      have hm2 : m = addLorasDict env M V (x :: xs) [] := by
        have : genNets env M V (x :: xs) = some m := hm
        simpa [genNets] using this.symm
      subst hm2
      rcases addLorasDict_entries env M V (x :: xs) [] kv hkv with hl | hgood
      · simp at hl
      · exact hgood

/-- An environment where id 9 resolves (with the code's argument
order) to a proper LoRA record. -/
def envLora9 : Env :=
  { envBase with
    getModelDetails := fun args =>
      if args = (PyVal.int 9, PyVal.str "M", PyVal.str "V") then
        .ok (some loraRec)
      else .ok none }

/-- The request that `generate_image` submits in `envLora9` with LoRA
list `[9]`. -/
def req9 : InputData :=
  { model := "air",
    params := { prompt := "p", negativePrompt := none, scheduler := none,
                steps := 5, cfgScale := ⟨"7.5"⟩, width := 10, height := 20,
                seed := -1, clipSkip := 1 },
    additionalNetworks := some [("urn:air:lora", ⟨"Lora", ⟨"1.0"⟩⟩)] }

/-- C6 witness. -/
theorem gen_request_fields_witness :
    req9.model = "air"
    ∧ req9.params = { prompt := "p", negativePrompt := none, scheduler := none,
                      steps := 5, cfgScale := ⟨"7.5"⟩, width := 10, height := 20,
                      seed := -1, clipSkip := 1 }
    ∧ (req9.additionalNetworks = none ↔ ([9] : List Int) = [])
    ∧ ((("urn:air:lora", ⟨"Lora", ⟨"1.0"⟩⟩) : String × NetEntry).2 =
        ⟨"Lora", ⟨"1.0"⟩⟩ ∧
        ∃ id, id ∈ ([9] : List Int) ∧
          loraAirOf envLora9 "M" "V" id = some "urn:air:lora") := by
  have h := gen_request_fields envLora9 "M" "V" "air" "p" none 10 20 none 5
    ⟨"7.5"⟩ [9] req9 [("urn:air:lora", ⟨"Lora", ⟨"1.0"⟩⟩)]
    ("urn:air:lora", ⟨"Lora", ⟨"1.0"⟩⟩) (by decide)
  exact ⟨h.1, h.2.1, h.2.2.1, h.2.2.2 (by decide) (by decide)⟩

/-- C1: in every interactive run, `civitai.image.create` is called
only if all required fields validated — the positive prompt is truthy,
the width-height string parsed into two integers, the step count
parsed as an `int` and the CFG scale as a `float`; and if any of the
three parses fails, the run never reaches `generate_image` (whose
first feedback message never appears in the trace). -/
theorem create_submits_only_after_validation (env : Env) (M V : String)
    (rm : Int) (ll : List Int) :
    (hasEvent isImageCreate (create_image_cli env M V rm ll).1 = true →
      posOk env = true ∧ whOk env = true ∧ stepsOk env = true ∧
        cfgOk env = true)
    ∧ ((whOk env = false ∨ stepsOk env = false ∨ cfgOk env = false) →
      hasEvent isGenStart (create_image_cli env M V rm ll).1 = false) := by
  have hic1 : ∀ ar, isImageCreate (.netModelLookup ar) = false := fun _ => rfl
  have hic2 : isImageCreate (.selectAsk "Select a version") = false := rfl
  have hic3 : ∀ m, isImageCreate (.feedback m "error") = false := fun _ => rfl
  have hgs1 : ∀ ar, isGenStart (.netModelLookup ar) = false := fun _ => rfl
  have hgs2 : isGenStart (.selectAsk "Select a version") = false := rfl
  have hgs3 : ∀ m, isGenStart (.feedback m "error") = false := by
    intro m
    simp [isGenStart]
  rcases create_cases env M V rm ll with ⟨tr, heq, hpre⟩ | ⟨arn, pre, hpre, heq⟩
  · have h1 : (create_image_cli env M V rm ll).1 = tr := by rw [heq]
    constructor
    · intro hic
      rw [h1, preEvents_hasEvent_false hpre isImageCreate hic1 hic2 hic3] at hic
      exact absurd hic (by simp)
    · intro _
      rw [h1]
      exact preEvents_hasEvent_false hpre isGenStart hgs1 hgs2 hgs3
  · have hicEq := create_hasEvent_reached env M V rm ll arn pre hpre heq
      isImageCreate hic1 hic2 hic3
    have hgsEq := create_hasEvent_reached env M V rm ll arn pre hpre heq
      isGenStart hgs1 hgs2 hgs3
    constructor
    · intro hic
      rw [hicEq] at hic
      rcases collect_cases env M V arn ll with
        ⟨hpos, hcol⟩ | ⟨hpos, hwh, hcol⟩ | ⟨ws, hpos, hwh, hwp, hcol⟩ |
        ⟨hpos, hwo, hst, hcol⟩ | ⟨st, hpos, hwo, hst, hsp, hcol⟩ |
        ⟨hpos, hwo, hso, hcf, hcol⟩ | ⟨cf, hpos, hwo, hso, hcf, hcp, hcol⟩ |
        ⟨pos, ws, w, hh, st, sn, cf, cfv, hp2, hpe, hw2, hwp2, hs2, hsp2,
          hc2, hcp2, hcol⟩
      · rw [hcol] at hic
        exact absurd hic (by decide)
      · rw [hcol] at hic
        exact absurd hic (by decide)
      · rw [hcol] at hic
        exact absurd hic (by decide)
      · rw [hcol] at hic
        exact absurd hic (by decide)
      · rw [hcol] at hic
        exact absurd hic (by decide)
      · rw [hcol] at hic
        exact absurd hic (by decide)
      · rw [hcol] at hic
        exact absurd hic (by decide)
      · refine ⟨?_, ?_, ?_, ?_⟩
        · simp [posOk, hp2, hpe]
        · simp [whOk, hw2, hwp2]
        · simp [stepsOk, hs2, hsp2]
        · simp [cfgOk, hc2, hcp2]
    · intro hor
      rw [hgsEq]
      rcases collect_cases env M V arn ll with
        ⟨hpos, hcol⟩ | ⟨hpos, hwh, hcol⟩ | ⟨ws, hpos, hwh, hwp, hcol⟩ |
        ⟨hpos, hwo, hst, hcol⟩ | ⟨st, hpos, hwo, hst, hsp, hcol⟩ |
        ⟨hpos, hwo, hso, hcf, hcol⟩ | ⟨cf, hpos, hwo, hso, hcf, hcp, hcol⟩ |
        ⟨pos, ws, w, hh, st, sn, cf, cfv, hp2, hpe, hw2, hwp2, hs2, hsp2,
          hc2, hcp2, hcol⟩
      · rw [hcol]
        decide
      · rw [hcol]
        decide
      · rw [hcol]
        decide
      · rw [hcol]
        decide
      · rw [hcol]
        decide
      · rw [hcol]
        decide
      · rw [hcol]
        decide
      · exfalso
        have hw3 : whOk env = true := by simp [whOk, hw2, hwp2]
        have hs3 : stepsOk env = true := by simp [stepsOk, hs2, hsp2]
        have hc3 : cfgOk env = true := by simp [cfgOk, hc2, hcp2]
        rcases hor with hno | hno | hno <;> simp_all

/-- An environment whose step answer does not parse as an integer. -/
def envBadSteps : Env := { envBase with stepsAnswer := some "abc" }

/-- C1 witness: in `envBase` the submission happens and all four
validations hold; with an unparseable step count, `generate_image` is
never invoked. -/
theorem create_submits_only_after_validation_witness :
    (posOk envBase = true ∧ whOk envBase = true ∧ stepsOk envBase = true ∧
      cfgOk envBase = true)
    ∧ hasEvent isGenStart (create_image_cli envBadSteps "M" "V" 7 []).1 = false :=
  ⟨(create_submits_only_after_validation envBase "M" "V" 7 []).1 (by decide),
   (create_submits_only_after_validation envBadSteps "M" "V" 7 []).2
     (by right; left; decide)⟩

/-- The collection phase never shows the version-selection menu. -/
theorem collect_no_version_select (env : Env) (M V arn : String)
    (ll : List Int) :
    hasEvent isVersionSelect (collect env M V arn ll).1 = false := by
  rcases collect_cases env M V arn ll with
    ⟨hpos, hcol⟩ | ⟨hpos, hwh, hcol⟩ | ⟨ws, hpos, hwh, hwp, hcol⟩ |
    ⟨hpos, hwo, hst, hcol⟩ | ⟨st, hpos, hwo, hst, hsp, hcol⟩ |
    ⟨hpos, hwo, hso, hcf, hcol⟩ | ⟨cf, hpos, hwo, hso, hcf, hcp, hcol⟩ |
    ⟨pos, ws, w, hh, st, sn, cf, cfv, hp2, hpe, hw2, hwp2, hs2, hsp2,
      hc2, hcp2, hcol⟩
  · rw [hcol]; decide
  · rw [hcol]; decide
  · rw [hcol]; decide
  · rw [hcol]; decide
  · rw [hcol]; decide
  · rw [hcol]; decide
  · rw [hcol]; decide
  · rw [hcol]
    refine hasEvent_eq_false fun e he => ?_
    simp only [List.append_assoc, List.mem_append] at he
    rcases he with he | he | he
    · simp at he
      rcases he with rfl | rfl | rfl | rfl | rfl | rfl <;>
        simp [isVersionSelect]
    · by_contra hvs
      have := isVersionSelect_eq (by simpa using hvs)
      subst this
      exact gen_no_select env M V arn pos env.negPromptAnswer w hh
        env.schedulerAnswer sn cfv ll "Select a version" he
    · rcases handleResponse_shape _ _ he with ⟨m2, s2, rfl⟩ | rfl | rfl <;> rfl

/-- Within the collection phase, any submitted request's model
reference is the chosen `arn`. -/
theorem collect_submit_model (env : Env) (M V arn : String) (ll : List Int)
    (req : InputData)
    (h : Event.netImageCreate req ∈ (collect env M V arn ll).1) :
    req.model = arn := by
  rcases collect_cases env M V arn ll with
    ⟨hpos, hcol⟩ | ⟨hpos, hwh, hcol⟩ | ⟨ws, hpos, hwh, hwp, hcol⟩ |
    ⟨hpos, hwo, hst, hcol⟩ | ⟨st, hpos, hwo, hst, hsp, hcol⟩ |
    ⟨hpos, hwo, hso, hcf, hcol⟩ | ⟨cf, hpos, hwo, hso, hcf, hcp, hcol⟩ |
    ⟨pos, ws, w, hh, st, sn, cf, cfv, hp2, hpe, hw2, hwp2, hs2, hsp2,
      hc2, hcp2, hcol⟩
  · rw [hcol] at h; simp at h
  · rw [hcol] at h; simp at h
  · rw [hcol] at h; simp at h
  · rw [hcol] at h; simp at h
  · rw [hcol] at h; simp at h
  · rw [hcol] at h; simp at h
  · rw [hcol] at h; simp at h
  · rw [hcol] at h
    simp only [List.append_assoc, List.mem_append] at h
    rcases h with h | h | h
    · simp at h
    · have h2 := mem_submittedReqs.mpr h
      rw [gen_submitted] at h2
      simp at h2
      rw [h2]
      rfl
    · rcases handleResponse_shape _ _ h with ⟨m2, s2, hh2⟩ | hh2 | hh2 <;>
        simp at hh2

/-- C3: when the processed metadata holds exactly one version, no
version-selection menu is shown and that version's `air` reference is
the model reference of any submitted request. -/
theorem single_version_no_prompt (env : Env) (M V : String) (rm : Int)
    (ll : List Int) (raw : Option ModelRecord) (pm : ModelRecord)
    (v : ModelVersion) (a : String) (req : InputData)
    (hlk : env.getModelDetails (.str M, .str V, .int rm) = .ok raw)
    (hpm : env.processModelData raw = some pm)
    (hv : pm.versions = [v]) (hair : v.air = some a) :
    hasEvent isVersionSelect (create_image_cli env M V rm ll).1 = false
    ∧ (Event.netImageCreate req ∈ (create_image_cli env M V rm ll).1 →
        req.model = a) := by
  have hred := create_red env M V rm ll raw pm v a hlk hpm hv hair
  have htr := create_reached_trace env M V rm ll a
    [.netModelLookup (.str M, .str V, .int rm)] hred
  constructor
  · rw [htr]
    refine hasEvent_eq_false fun e he => ?_
    simp only [List.append_assoc, List.mem_append] at he
    rcases he with he | he | he
    · simp at he
      subst he
      rfl
    · have hfalse := collect_no_version_select env M V a ll
      rw [hasEvent] at hfalse
      simpa using List.any_eq_false.mp hfalse e he
    · rcases hc2 : (collect env M V a ll).2 with e2 | a2 <;>
        simp only [hc2] at he <;> simp at he
      subst he
      simp [isVersionSelect]
  · intro hreq
    rw [htr] at hreq
    simp only [List.append_assoc, List.mem_append] at hreq
    rcases hreq with hreq | hreq | hreq
    · simp at hreq
    · exact collect_submit_model env M V a ll req hreq
    · rcases hc2 : (collect env M V a ll).2 with e2 | a2 <;>
        simp only [hc2] at hreq <;> simp at hreq

/-- The request submitted in `envBase` for model 7. -/
def reqC3 : InputData :=
  { model := "urn:air:sdxl",
    params := { prompt := "a cat", negativePrompt := some "",
                scheduler := some "EulerA", steps := 30, cfgScale := ⟨"7.5"⟩,
                width := 1024, height := 1024, seed := -1, clipSkip := 1 },
    additionalNetworks := none }

/-- C3 witness: in `envBase`, model 7 has exactly one version; no
menu appears and the submitted request uses its `air`. -/
theorem single_version_no_prompt_witness :
    hasEvent isVersionSelect (create_image_cli envBase "M" "V" 7 []).1 = false
    ∧ reqC3.model = "urn:air:sdxl" := by
  have h := single_version_no_prompt envBase "M" "V" 7 [] (some recGood)
    recGood verGood "urn:air:sdxl" reqC3 rfl rfl rfl rfl
  exact ⟨h.1, h.2 (by decide)⟩

/-- An environment answering the positive prompt with the empty
string. -/
def envEmptyPrompt : Env := { envBase with posPromptAnswer := some "" }

/-- C4: an empty positive prompt makes `create_image_cli` emit
`"Positive prompt is required."` with severity `error` and return
without any remote generation-service call. -/
theorem empty_prompt_aborts (env : Env) (M V : String) (rm : Int)
    (ll : List Int) (raw : Option ModelRecord) (pm : ModelRecord)
    (v : ModelVersion) (a : String)
    (hlk : env.getModelDetails (.str M, .str V, .int rm) = .ok raw)
    (hpm : env.processModelData raw = some pm)
    (hv : pm.versions = [v]) (hair : v.air = some a)
    (hpos : posOk env = false) :
    hasFeedback (create_image_cli env M V rm ll).1
      "Positive prompt is required." "error" = true
    ∧ hasEvent isRemote (create_image_cli env M V rm ll).1 = false := by
  have hred := create_red env M V rm ll raw pm v a hlk hpm hv hair
  rcases collect_cases env M V a ll with
    ⟨_, hcol⟩ | ⟨hp2, _, _⟩ | ⟨ws, hp2, _, _, _⟩ |
    ⟨hp2, _, _, _⟩ | ⟨st, hp2, _, _, _, _⟩ |
    ⟨hp2, _, _, _, _⟩ | ⟨cf, hp2, _, _, _, _, _⟩ |
    ⟨pos, ws, w, hh, st, sn, cf, cfv, hp2, hpe, _, _, _, _, _, _, _⟩
  · have h1 : (create_image_cli env M V rm ll).1 =
        .netModelLookup (.str M, .str V, .int rm) ::
          (collect env M V a ll).1 := by
      rw [hred, pytry_ok (a := ()) (by rw [hcol])]
    constructor
    · refine hasFeedback_of_mem ?_
      rw [h1, hcol]
      simp
    · rw [h1, hcol]
      simp [hasEvent, isRemote]
  · exact absurd hp2 (by simp [hpos])
  · exact absurd hp2 (by simp [hpos])
  · exact absurd hp2 (by simp [hpos])
  · exact absurd hp2 (by simp [hpos])
  · exact absurd hp2 (by simp [hpos])
  · exact absurd hp2 (by simp [hpos])
  · exact absurd (show posOk env = true by simp [posOk, hp2, hpe])
      (by simp [hpos])

/-- C4 witness. -/
theorem empty_prompt_aborts_witness :
    hasFeedback (create_image_cli envEmptyPrompt "M" "V" 7 []).1
      "Positive prompt is required." "error" = true
    ∧ hasEvent isRemote (create_image_cli envEmptyPrompt "M" "V" 7 []).1 = false :=
  empty_prompt_aborts envEmptyPrompt "M" "V" 7 [] (some recGood) recGood
    verGood "urn:air:sdxl" rfl rfl rfl rfl (by decide)

/-- An environment answering the width-height prompt with
`" 10x20"` — not of the form `<int>x<int>`, yet accepted by
Python's `int()`. -/
def envWS : Env := { envBase with widthHeightAnswer := some " 10x20" }

/-- C2 counterexample: the input `" 10x20"` does not match the form
`<int>x<int>` (its first part starts with a space), yet the run
performs the remote generation call and emits no width-height
validation error: Python's `int()` tolerates surrounding whitespace
(and signs and underscore separators), so the code accepts a strict
superset of the spec's literal form. -/
theorem width_height_spec_form_counterexample :
    specIntXInt " 10x20" = false
    ∧ hasEvent isRemote (create_image_cli envWS "M" "V" 7 []).1 = true
    ∧ hasFeedback (create_image_cli envWS "M" "V" 7 []).1
        "Invalid width x height format. Please use format like \u00271024x1024\u0027."
        "error" = false := by
  decide

/-- C2 (amended): for every width-height answer whose split on `x`
does not yield exactly two `int()`-parseable parts (Python `int`
semantics: surrounding whitespace, an optional sign, underscore digit
separators), the run performs no remote generation-service call at
all; and whenever the flow reaches the width-height prompt (the model
resolved, normalized to a single version carrying an `air`, and the
positive prompt truthy), the validation error message is emitted. -/
theorem width_height_parse_failure_aborts (env : Env) (M V : String)
    (rm : Int) (ll : List Int) (s : String) (raw : Option ModelRecord)
    (pm : ModelRecord) (v : ModelVersion) (a : String)
    (hwh : env.widthHeightAnswer = some s)
    (hbad : widthHeightParse s = none) :
    hasEvent isRemote (create_image_cli env M V rm ll).1 = false
    ∧ (env.getModelDetails (.str M, .str V, .int rm) = .ok raw →
       env.processModelData raw = some pm → pm.versions = [v] →
       v.air = some a → posOk env = true →
       hasFeedback (create_image_cli env M V rm ll).1
         "Invalid width x height format. Please use format like \u00271024x1024\u0027."
         "error" = true) := by
  have hcolNoRemote : ∀ arn,
      hasEvent isRemote (collect env M V arn ll).1 = false := by
    intro arn
    rcases collect_cases env M V arn ll with
      ⟨hpos, hcol⟩ | ⟨hpos, hwh2, hcol⟩ | ⟨ws, hpos, hwh2, hwp, hcol⟩ |
      ⟨hpos, hwo, hst, hcol⟩ | ⟨st, hpos, hwo, hst, hsp, hcol⟩ |
      ⟨hpos, hwo, hso, hcf, hcol⟩ | ⟨cf, hpos, hwo, hso, hcf, hcp, hcol⟩ |
      ⟨pos, ws, w, hh, st, sn, cf, cfv, hp2, hpe, hw2, hwp2, hs2, hsp2,
        hc2, hcp2, hcol⟩
    · rw [hcol]; decide
    · simp [hwh] at hwh2
    · rw [hcol]; decide
    · simp [whOk, hwh, hbad] at hwo
    · simp [whOk, hwh, hbad] at hwo
    · simp [whOk, hwh, hbad] at hwo
    · simp [whOk, hwh, hbad] at hwo
    · rw [hwh] at hw2
      injection hw2 with h3
      subst h3
      exact absurd hwp2 (by simp [hbad])
  constructor
  · rcases create_cases env M V rm ll with ⟨tr, heq, hpre⟩ | ⟨arn, pre, hpre, heq⟩
    · have h1 : (create_image_cli env M V rm ll).1 = tr := by rw [heq]
      rw [h1]
      exact preEvents_hasEvent_false hpre isRemote (fun _ => rfl) rfl
        (fun _ => rfl)
    · rw [create_hasEvent_reached env M V rm ll arn pre hpre heq isRemote
        (fun _ => rfl) rfl (fun _ => rfl)]
      exact hcolNoRemote arn
  · intro hlk hpm hv hair hpos
    have hred := create_red env M V rm ll raw pm v a hlk hpm hv hair
    rcases collect_cases env M V a ll with
      ⟨hpos2, hcol⟩ | ⟨hpos2, hwh2, hcol⟩ | ⟨ws, hpos2, hwh2, hwp, hcol⟩ |
      ⟨hpos2, hwo, hst, hcol⟩ | ⟨st, hpos2, hwo, hst, hsp, hcol⟩ |
      ⟨hpos2, hwo, hso, hcf, hcol⟩ | ⟨cf, hpos2, hwo, hso, hcf, hcp, hcol⟩ |
      ⟨pos, ws, w, hh, st, sn, cf, cfv, hp2, hpe, hw2, hwp2, hs2, hsp2,
        hc2, hcp2, hcol⟩
    · exact absurd hpos (by simp [hpos2])
    · simp [hwh] at hwh2
    · have h1 : (create_image_cli env M V rm ll).1 =
          .netModelLookup (.str M, .str V, .int rm) ::
            (collect env M V a ll).1 := by
        rw [hred, pytry_ok (a := ()) (by rw [hcol])]
      refine hasFeedback_of_mem ?_
      rw [h1, hcol]
      simp
    · simp [whOk, hwh, hbad] at hwo
    · simp [whOk, hwh, hbad] at hwo
    · simp [whOk, hwh, hbad] at hwo
    · simp [whOk, hwh, hbad] at hwo
    · rw [hwh] at hw2
      injection hw2 with h3
      subst h3
      exact absurd hwp2 (by simp [hbad])

/-- An environment answering the width-height prompt with `"abc"`. -/
def envBadWH : Env := { envBase with widthHeightAnswer := some "abc" }

/-- C2 witness. -/
theorem width_height_parse_failure_aborts_witness :
    hasEvent isRemote (create_image_cli envBadWH "M" "V" 7 []).1 = false
    ∧ hasFeedback (create_image_cli envBadWH "M" "V" 7 []).1
        "Invalid width x height format. Please use format like \u00271024x1024\u0027."
        "error" = true := by
  have h := width_height_parse_failure_aborts envBadWH "M" "V" 7 [] "abc"
    (some recGood) recGood verGood "urn:air:sdxl" rfl (by decide)
  exact ⟨h.1, h.2 rfl rfl rfl rfl (by decide)⟩

/-- C9: after a successful submission whose response carries a
`jobId`, the call `fetch_job_details(response["jobId"])` at
create.py:272 supplies one positional argument to a function declared
with three required parameters, so Python raises `TypeError` at the
call site; the exception is caught only by the enclosing generic
handler (whose message ends the trace), the `"Job details:"` branch
after the call never executes, and `create_image_cli` still returns
`None`. -/
theorem post_submission_lookup_raises (env : Env) (M V : String) (rm : Int)
    (ll : List Int) (raw : Option ModelRecord) (pm : ModelRecord)
    (v : ModelVersion) (a p ws st cf : String) (w hh sn : Int)
    (cfv : PyFloat) (r : Response)
    (hlk : env.getModelDetails (.str M, .str V, .int rm) = .ok raw)
    (hpm : env.processModelData raw = some pm)
    (hv : pm.versions = [v]) (hair : v.air = some a)
    (hposA : env.posPromptAnswer = some p) (hpne : p ≠ "")
    (hwhA : env.widthHeightAnswer = some ws)
    (hwhp : widthHeightParse ws = some (w, hh))
    (hstA : env.stepsAnswer = some st) (hstp : pyParseInt st = some sn)
    (hcfA : env.cfgAnswer = some cf) (hcfp : pyParseFloat cf = some cfv)
    (him : ∀ din, env.imageCreate din = .ok (some r))
    (hr : r ≠ []) (hj : dictHas r "jobId" = true) :
    Event.consolePrint "Job details:" ∉ (create_image_cli env M V rm ll).1
    ∧ hasFeedback (create_image_cli env M V rm ll).1
        ("An unexpected error occurred: " ++ fetchArityMsg) "error" = true
    ∧ (create_image_cli env M V rm ll).2 = .ok () := by
  have hred := create_red env M V rm ll raw pm v a hlk hpm hv hair
  have hcolred : collect env M V a ll =
      ([.promptAsk "Enter positive prompt:",
        .promptAsk "Enter negative prompt (optional):",
        .promptAsk "Enter width x height (e.g., 1024x1024):",
        .selectAsk "Select scheduler:",
        .promptAsk "Enter number of steps:",
        .promptAsk "Enter CFG scale:"] ++
        ((generate_image env M V a p env.negPromptAnswer w hh
            env.schedulerAnswer sn cfv ll).1 ++
          (handleResponse (genResp env M V a p env.negPromptAnswer w hh
            env.schedulerAnswer sn cfv ll)).1),
       (handleResponse (genResp env M V a p env.negPromptAnswer w hh
         env.schedulerAnswer sn cfv ll)).2) := by
    have hred2 : collect env M V a ll =
        pseq (.promptAsk "Enter positive prompt:")
          (pseq (.promptAsk "Enter negative prompt (optional):")
            (pseq (.promptAsk "Enter width x height (e.g., 1024x1024):")
              (pseq (.selectAsk "Select scheduler:")
                (pseq (.promptAsk "Enter number of steps:")
                  (pseq (.promptAsk "Enter CFG scale:")
                    (pbind (generate_image env M V a p env.negPromptAnswer
                        w hh env.schedulerAnswer sn cfv ll)
                      handleResponse)))))) := by
      simp only [collect, hposA, hwhA, hwhp, hstA, hstp, hcfA, hcfp]
      rw [if_neg hpne]
    rw [hred2, pbind_ok (gen_snd env M V a p env.negPromptAnswer w hh
      env.schedulerAnswer sn cfv ll)]
    simp [pseq]
  have hresp : genResp env M V a p env.negPromptAnswer w hh
      env.schedulerAnswer sn cfv ll = some r := by
    simp [genResp, him]
  have hrE : r.isEmpty = false := by
    cases r
    · exact absurd rfl hr
    · rfl
  have hhandle : handleResponse (some r) =
      ([.consolePrint "Image generation response:", .printJson],
       .error (.typeError fetchArityMsg)) := by
    simp [handleResponse, hrE, hj, pseq, pthrow]
  have hcol2 : (collect env M V a ll).2 = .error (.typeError fetchArityMsg) := by
    rw [hcolred]
    simp [hresp, hhandle]
  have h1 : create_image_cli env M V rm ll =
      ((.netModelLookup (.str M, .str V, .int rm) ::
          (collect env M V a ll).1) ++
        [.feedback ("An unexpected error occurred: " ++ fetchArityMsg) "error"],
       .ok ()) := by
    rw [hred, pytry_err
      (x := (Event.netModelLookup (.str M, .str V, .int rm) ::
        (collect env M V a ll).1, (collect env M V a ll).2))
      (e := .typeError fetchArityMsg) hcol2]
    simp [createHandler, pemit, pyStr]
  refine ⟨?_, ?_, ?_⟩
  · intro hmem
    rw [h1, hcolred, hresp, hhandle] at hmem
    simp at hmem
    have := gen_consoles env M V a p env.negPromptAnswer w hh
      env.schedulerAnswer sn cfv ll "Job details:" hmem
    simp at this
  · apply hasFeedback_of_mem
    rw [h1]
    simp
  · rw [h1]

/-- An environment where submission succeeds with a response carrying
a `jobId`. -/
def envJob : Env := { envBase with imageCreate := fun _ => .ok (some respJob) }

/-- C9 witness. -/
theorem post_submission_lookup_raises_witness :
    Event.consolePrint "Job details:" ∉ (create_image_cli envJob "M" "V" 7 []).1
    ∧ hasFeedback (create_image_cli envJob "M" "V" 7 []).1
        ("An unexpected error occurred: " ++ fetchArityMsg) "error" = true
    ∧ (create_image_cli envJob "M" "V" 7 []).2 = .ok () :=
  post_submission_lookup_raises envJob "M" "V" 7 [] (some recGood)
    recGood verGood "urn:air:sdxl" "a cat" "1024x1024" "30" "7.5" 1024 1024 30
    ⟨"7.5"⟩ respJob rfl rfl rfl rfl rfl (by decide) rfl (by decide) rfl
    (by decide) rfl (by decide) (fun _ => rfl) (by decide) (by decide)

end CivitaiCreate

